import Mathlib

/-!
# Verification of the Multi-Provider Quote Aggregation Engine

A shallow embedding, in Lean 4, of the core of the `insurance-website`
repository: the response normalizers and the quote aggregator of
`comparison_service.py`, the field mapper of `scrapers/field_mapper.py`,
and the serialized automation queue of `scrapers/rma_browser_manager.py`.

Modelling conventions:
* Python's dynamically typed values are the inductive type `PyVal`;
  Python `int`/`float` are both modelled as exact rationals (decimal
  literals such as `0.52` and `0.165` become the exact rationals
  `13/25` and `33/200`), and `round(x, 2)` is exact round-half-to-even
  on rationals.
* Python exceptions are the `Except String` monad (`Py α`); a caught
  exception is a handled `Except.error`.
* Network and browser I/O performed by the scraper functions is an
  oracle parameter `behave : String → PyVal → Except String PyVal`
  giving, per provider code, either the raw response or the exception
  the scraper call raises.  Wall-clock readings (`datetime.now`) and
  the `random` module's draws are likewise explicit parameters.
  Database logging (only active when a `user_id` is supplied, and
  swallowed by its own `try/except`) is outside every claim and not
  modelled; `fetch_time` values are wall-clock readings and are not
  modelled either.
* The thread/queue machinery of `rma_browser_manager.py` is a
  small-step transition relation over an explicit state type, with one
  transition per relevant atomic action of the Python source.
-/

namespace InsuranceSite

/-- A dynamically typed Python value (`None`, `bool`, number, `str`,
`list`, `dict` with string keys; every dict key occurring in the
modelled code is a string). -/
inductive PyVal where
  | pnone : PyVal
  | pbool : Bool → PyVal
  | pnum : ℚ → PyVal
  | pstr : String → PyVal
  | plist : List PyVal → PyVal
  | pdict : List (String × PyVal) → PyVal
  deriving Repr

open PyVal

/-- Python exceptions as an error monad; the string is `str(e)`. -/
abbrev Py (α : Type) := Except String α

/-- Python truthiness (`bool(v)`). -/
def truthy : PyVal → Bool
  | pnone => false
  | pbool b => b
  | pnum q => decide (q ≠ 0)
  | pstr s => decide (s ≠ "")
  | plist xs => !xs.isEmpty
  | pdict kvs => !kvs.isEmpty

/-- Python `isinstance(v, dict)`. -/
def isDict : PyVal → Bool
  | pdict _ => true
  | _ => false

/-- Python `isinstance(v, list)`. -/
def isList : PyVal → Bool
  | plist _ => true
  | _ => false

/-- Structural equality used by Python `in` on lists (`__eq__`); only
ever applied with a string on one side in the modelled code, where it
agrees with Python equality. -/
def pyBeq : PyVal → PyVal → Bool
  | pnone, pnone => true
  | pbool a, pbool b => a == b
  | pnum a, pnum b => a == b
  | pstr a, pstr b => a == b
  | _, _ => false

/-- Lookup in an association list modelling a Python dict. -/
def dictFind (kvs : List (String × PyVal)) (k : String) : Option PyVal :=
  (kvs.find? (fun kv => kv.1 == k)).map (·.2)

/-- Total `d.get(k, dflt)` for a value already known to be a dict. -/
def dictGetD (v : PyVal) (k : String) (dflt : PyVal) : PyVal :=
  match v with
  | pdict kvs => (dictFind kvs k).getD dflt
  | _ => dflt

/-- Python `v.get(k, dflt)`: `AttributeError` unless `v` is a dict. -/
def pyGet (v : PyVal) (k : String) (dflt : PyVal) : Py PyVal :=
  match v with
  | pdict kvs => .ok ((dictFind kvs k).getD dflt)
  | _ => .error "AttributeError: object has no attribute get"

/-- Numeric view of a Python value (`bool` is an `int` subtype). -/
def toNum : PyVal → Option ℚ
  | pnum q => some q
  | pbool b => some (if b then 1 else 0)
  | _ => none

/-- Python subtraction: numbers only, otherwise `TypeError`. -/
def pySub (a b : PyVal) : Py PyVal :=
  match toNum a, toNum b with
  | some x, some y => .ok (pnum (x - y))
  | _, _ => .error "TypeError: unsupported operand types for -"

/-- Python addition: numbers, string concatenation, list concatenation;
otherwise `TypeError`. -/
def pyAdd (a b : PyVal) : Py PyVal :=
  match a, b with
  | pstr x, pstr y => .ok (pstr (x ++ y))
  | plist x, plist y => .ok (plist (x ++ y))
  | _, _ =>
    match toNum a, toNum b with
    | some x, some y => .ok (pnum (x + y))
    | _, _ => .error "TypeError: unsupported operand types for +"

/-- Python multiplication by a float constant (the only multiplications
in the modelled code are `x * 0.52` and `x * 0.165`): numbers only,
otherwise `TypeError`. -/
def pyMulC (a : PyVal) (c : ℚ) : Py PyVal :=
  match toNum a with
  | some x => .ok (pnum (x * c))
  | none => .error "TypeError: cannot multiply non-number by float"

/-- Round-half-to-even to an integer, as Python `round` does (on the
exact-rational model of numbers). -/
def roundHalfEven (q : ℚ) : ℤ :=
  let f : ℤ := ⌊q⌋
  let r : ℚ := q - f
  if r < 1/2 then f
  else if 1/2 < r then f + 1
  else if Even f then f else f + 1

/-- Python `round(q, 2)` on the exact-rational model. -/
def round2 (q : ℚ) : ℚ :=
  (roundHalfEven (q * 100) : ℚ) / 100

/-- Python `round(v, 2)` on a dynamic value: `TypeError` on non-numbers. -/
def pyRound2 (v : PyVal) : Py PyVal :=
  match toNum v with
  | some q => .ok (pnum (round2 q))
  | none => .error "TypeError: type cannot be rounded"

/-- Python `len(v)`: sized containers only, otherwise `TypeError`. -/
def pyLen (v : PyVal) : Py ℕ :=
  match v with
  | plist xs => .ok xs.length
  | pstr s => .ok s.length
  | pdict kvs => .ok kvs.length
  | _ => .error "TypeError: object has no len"

/-- Python `v[i]` with a non-negative `int` index, as used under an
`i < len(v)` guard: list/str indexing; `KeyError` for a dict (no int
keys occur), `TypeError` otherwise. -/
def pyIdx (v : PyVal) (i : ℕ) : Py PyVal :=
  match v with
  | plist xs =>
    match xs.get? i with
    | some x => .ok x
    | none => .error "IndexError: list index out of range"
  | pstr s =>
    match s.toList.get? i with
    | some c => .ok (pstr (String.mk [c]))
    | none => .error "IndexError: string index out of range"
  | pdict _ => .error "KeyError: int key"
  | _ => .error "TypeError: object is not subscriptable"

/-- Python `v[k]` with a string key: dict lookup (`KeyError` when the
key is absent), `TypeError` on lists/strings (string indices must be
integers), `TypeError` otherwise. -/
def pyIdxS (v : PyVal) (k : String) : Py PyVal :=
  match v with
  | pdict kvs =>
    match dictFind kvs k with
    | some x => .ok x
    | none => .error "KeyError"
  | plist _ => .error "TypeError: list indices must be integers"
  | pstr _ => .error "TypeError: string indices must be integers"
  | _ => .error "TypeError: object is not subscriptable"

/-- Character-list `s` starts with `p`. -/
def charsStartWith : List Char → List Char → Bool
  | _, [] => true
  | [], _ :: _ => false
  | c :: cs, d :: ds => c == d && charsStartWith cs ds

/-- Character-list `s` contains `p` as a contiguous run (Python
substring membership). -/
def charsContain (s p : List Char) : Bool :=
  if charsStartWith s p then true
  else
    match s with
    | [] => false
    | _ :: cs => charsContain cs p

/-- Python `k in v` for a string `k`: dict key membership, list element
membership, substring test on strings, `TypeError` otherwise. -/
def pyContainsS (v : PyVal) (k : String) : Py Bool :=
  match v with
  | pdict kvs => .ok (kvs.any (fun kv => kv.1 == k))
  | plist xs => .ok (xs.any (fun x => pyBeq x (pstr k)))
  | pstr s => .ok (charsContain s.toList k.toList)
  | _ => .error "TypeError: argument is not iterable"

/-- Python iteration `for x in v`: list elements, dict keys, characters
of a string; `TypeError` otherwise. -/
def pyIter (v : PyVal) : Py (List PyVal) :=
  match v with
  | plist xs => .ok xs
  | pdict kvs => .ok (kvs.map (fun kv => pstr kv.1))
  | pstr s => .ok (s.toList.map (fun c => pstr (String.mk [c])))
  | _ => .error "TypeError: object is not iterable"

/-- Python `x or y` (value-returning). -/
def pyOr (a b : PyVal) : PyVal :=
  if truthy a then a else b

/-- Membership of a key in a dict value (`'k' in d` with `d` a dict). -/
def dictHasKey (v : PyVal) (k : String) : Bool :=
  match v with
  | pdict kvs => kvs.any (fun kv => kv.1 == k)
  | _ => false

/-! ## The canonical plan model

One pricing block per billing cadence.  A field is `none` when the
corresponding key is absent from the plan dict built by the normalizer
(the filtered RMA shape builds blocks holding only `prime_total`). -/

/-- Pricing block of a normalized plan (`annual` / `semi_annual`). -/
structure PriceBlock where
  prime_net : Option PyVal
  taxes : Option PyVal
  cnpac : Option PyVal
  accessoire : Option PyVal
  prime_total : PyVal
  deriving Repr

/-- A normalized plan as built by the four `parse_*_response`
normalizers of `comparison_service.py`. -/
structure Plan where
  plan_name : PyVal
  plan_code : PyVal
  provider : String
  provider_code : String
  color : String
  pack_id : Option ℤ
  annual : PriceBlock
  semi_annual : PriceBlock
  guarantees : PyVal
  selectable_fields : Option PyVal
  is_eligible : PyVal
  order : ℕ
  deriving Repr

/-- Cyclic color pick `colors[idx % len(colors)]`. -/
def colorAt (cs : List String) (idx : ℕ) : String :=
  cs.getD (idx % cs.length) ""

/-- Indexed loop over the raw plan array: falsy entries are skipped
(`if not formula: continue`), the rest are built in order, and an
exception from any entry aborts the whole parse. -/
def buildPlans (f : ℕ → PyVal → Py Plan) : ℕ → List PyVal → Py (List Plan)
  | _, [] => pure []
  | i, x :: xs =>
    if truthy x then do
      let p ← f i x
      let rest ← buildPlans f (i + 1) xs
      pure (p :: rest)
    else
      buildPlans f (i + 1) xs

/-! ## Sanlam normalizer (`parse_sanlam_response`) -/

/-- Sanlam brand colors used cyclically. -/
def sanlamColors : List String := ["#0066B3", "#003366", "#004d99"]

/-- Pricing block from one Sanlam formula dict: net `primeHT`, taxes
`priceTTC - primeHT`, total `priceTTC`. -/
def sanlamBlock (formula : PyVal) : Py PriceBlock := do
  let ht ← pyGet formula "primeHT" (pnum 0)
  let ttc ← pyGet formula "priceTTC" (pnum 0)
  let taxes ← pySub ttc ht
  pure ⟨some ht, some taxes, none, none, ttc⟩

/-- Semi-annual pricing block of the old (list-only) Sanlam shape:
each annual component times `0.52`, rounded to 2 decimals. -/
def sanlamSemiOldBlock (formula : PyVal) : Py PriceBlock := do
  let ht ← pyGet formula "primeHT" (pnum 0)
  let net ← pyRound2 (← pyMulC ht (13/25))
  let ttc ← pyGet formula "priceTTC" (pnum 0)
  let taxes ← pyRound2 (← pyMulC (← pySub ttc ht) (13/25))
  let tot ← pyRound2 (← pyMulC ttc (13/25))
  pure ⟨some net, some taxes, none, none, tot⟩

/-- Guarantee list from one Sanlam formula dict. -/
def sanlamGuarantees (formula : PyVal) : Py PyVal := do
  let covs ← pyGet formula "coverages" (plist [])
  let items ← pyIter covs
  let gs ← items.mapM (fun cov => do
    let nm ← pyGet cov "coverageName" (pstr "")
    let chk ← pyGet cov "checked" (pbool false)
    pure (pdict [("name", nm), ("included", chk)]))
  pure (plist gs)

/-- The expression `xs[idx] if idx < len(xs) else fallback` used by
all three dict-shape builders to pick the semi-annual entry. -/
def semiAt (xs : PyVal) (idx : ℕ) (fallback : PyVal) : Py PyVal := do
  let n ← pyLen xs
  if idx < n then pyIdx xs idx else pure fallback

/-- One plan of the new (dict) Sanlam shape.  The semi-annual formula
is `semi_annual_data[idx]` when that index exists and otherwise the
annual formula itself. -/
def sanlamPlanNew (semis : PyVal) (idx : ℕ) (formula : PyVal) : Py Plan := do
  let semiF ← semiAt semis idx formula
  let nm ← pyGet formula "name" (pstr ("Formule " ++ toString (idx + 1)))
  let annual ← sanlamBlock formula
  let semi ← sanlamBlock semiF
  let gs ← sanlamGuarantees formula
  pure ⟨nm, pstr ("sanlam_" ++ toString idx), "Sanlam Assurance", "sanlam",
        colorAt sanlamColors idx, none, annual, semi, gs, none, pbool true, idx⟩

/-- One plan of the old (list-only) Sanlam shape. -/
def sanlamPlanOld (idx : ℕ) (formula : PyVal) : Py Plan := do
  let nm ← pyGet formula "name" (pstr ("Formule " ++ toString (idx + 1)))
  let annual ← sanlamBlock formula
  let semi ← sanlamSemiOldBlock formula
  let gs ← sanlamGuarantees formula
  pure ⟨nm, pstr ("sanlam_" ++ toString idx), "Sanlam Assurance", "sanlam",
        colorAt sanlamColors idx, none, annual, semi, gs, none, pbool true, idx⟩

/-- Elements of a value already known to be a list (the guarded
branches below only reach it after an `isinstance(…, list)` check). -/
def asList : PyVal → List PyVal
  | plist xs => xs
  | _ => []

/-- Embedding of `parse_sanlam_response`. -/
def parseSanlamResponse (data : PyVal) : Py (List Plan) :=
  if isDict data && dictHasKey data "annual" then
    if !truthy (dictGetD data "annual" (plist [])) ||
        !isList (dictGetD data "annual" (plist [])) then pure []
    else
      buildPlans (sanlamPlanNew (dictGetD data "semi_annual" (plist []))) 0
        (asList (dictGetD data "annual" (plist [])))
  else if !truthy data || !isList data then pure []
  else buildPlans sanlamPlanOld 0 (asList data)

/-! ## MCMA normalizer (`parse_mcma_response`) -/

/-- Python `str.title()`: the first character of every alphabetic run
is uppercased, the rest lowercased. -/
def titleCaseAux : Bool → List Char → List Char
  | _, [] => []
  | prevAlpha, c :: cs =>
    if c.isAlpha then
      (if prevAlpha then c.toLower else c.toUpper) :: titleCaseAux true cs
    else
      c :: titleCaseAux false cs

/-- Python `s.title()`. -/
def titleCase (s : String) : String :=
  String.mk (titleCaseAux false s.toList)

/-- Order in which MCMA packs are emitted. -/
def mcmaPackOrder : List String := ["essentielle", "confort", "optimale", "tout_risque"]

/-- MCMA brand colors used cyclically. -/
def mcmaColors : List String := ["#2fd0a7", "#1ba88e", "#0d8f75", "#00765c"]

/-- One option of a selectable field (`{"label": ..., "value": ...}`). -/
def selOption (label : String) (value : ℚ) : PyVal :=
  pdict [("label", pstr label), ("value", pnum value)]

/-- The static `MCMA_SELECTABLE_CONFIG` lookup (default `[]`). -/
def mcmaSelectableConfig (packKey : String) : PyVal :=
  if packKey = "optimale" then plist [
    pdict [("code", pstr "brokenGlassValue"), ("title", pstr "Bris de Glaces"),
      ("options", plist [selOption "7 000 DH" 7000, selOption "10 000 DH" 10000,
        selOption "15 000 DH" 15000]),
      ("default", pnum 7000)],
    pdict [("code", pstr "damageAndCollision"), ("title", pstr "Dommages-Collision"),
      ("options", plist [selOption "20 000 DH" 20000, selOption "30 000 DH" 30000,
        selOption "50 000 DH" 50000]),
      ("default", pnum 20000)]]
  else if packKey = "tout_risque" then plist [
    pdict [("code", pstr "brokenGlassValue"), ("title", pstr "Bris de Glaces"),
      ("options", plist [selOption "7 000 DH" 7000, selOption "10 000 DH" 10000,
        selOption "15 000 DH" 15000]),
      ("default", pnum 7000)],
    pdict [("code", pstr "franchise"), ("title", pstr "Franchise"),
      ("options", plist [selOption "3%" 3, selOption "5%" 5, selOption "10%" 10]),
      ("default", pnum 5)]]
  else plist []

/-- One MCMA pack: skipped when its key is absent from the packs data
or the pack is disabled; taxes are `16.5%` of the base price rounded to
2 decimals, totals are base plus taxes rounded to 2 decimals. -/
def mcmaPlanOfPack (packsData : PyVal) (idx : ℕ) (packKey : String) :
    Py (Option Plan) := do
  let mem ← pyContainsS packsData packKey
  if !mem then pure none
  else do
    let pack ← pyIdxS packsData packKey
    let dis ← pyGet pack "disabled" (pbool false)
    if truthy dis then pure none
    else do
      let annualPrice ← pyGet pack "annualBasePrice" (pnum 0)
      let semiPrice ← pyGet pack "semiAnnualBasePrice" (pnum 0)
      let annualTaxes ← pyRound2 (← pyMulC annualPrice (33/200))
      let semiTaxes ← pyRound2 (← pyMulC semiPrice (33/200))
      let title ← pyGet pack "title" (pstr (titleCase packKey))
      let key ← pyGet pack "key" (pstr packKey)
      let totAnnual ← pyRound2 (← pyAdd annualPrice annualTaxes)
      let totSemi ← pyRound2 (← pyAdd semiPrice semiTaxes)
      let privs ← pyGet pack "privileges" (plist [])
      let items ← pyIter privs
      let gs ← items.mapM (fun priv => do
        let t ← pyGet priv "title" (pstr "")
        pure (pdict [("name", t), ("included", pbool true)]))
      let dis2 ← pyGet pack "disabled" (pbool false)
      pure (some ⟨title, key, "MAMDA-MCMA", "mcma", colorAt mcmaColors idx, none,
        ⟨some annualPrice, some annualTaxes, none, none, totAnnual⟩,
        ⟨some semiPrice, some semiTaxes, none, none, totSemi⟩,
        plist gs, some (mcmaSelectableConfig packKey), pbool (!truthy dis2), idx⟩)

/-- Loop over the four fixed MCMA pack keys. -/
def mcmaLoop (packsData : PyVal) : ℕ → List String → Py (List Plan)
  | _, [] => pure []
  | i, k :: ks => do
    let p? ← mcmaPlanOfPack packsData i k
    let rest ← mcmaLoop packsData (i + 1) ks
    pure (match p? with | some p => p :: rest | none => rest)

/-- Embedding of `parse_mcma_response`: returns the plans and the
optional session data (`subscription_id`/`token`). -/
def parseMcmaResponse (data : PyVal) : Py (List Plan × Option PyVal) :=
  if !truthy data || !isDict data then pure ([], none)
  else do
    let plans ← mcmaLoop (dictGetD data "packs" data) 0 mcmaPackOrder
    pure (plans,
      if truthy (dictGetD data "subscription_id" pnone) &&
          truthy (dictGetD data "token" pnone) then
        some (pdict [("subscription_id", dictGetD data "subscription_id" pnone),
          ("token", dictGetD data "token" pnone)])
      else none)

/-! ## RMA normalizer (`parse_rma_response`) -/

/-- Python `str(v)`.  The decimal rendering of non-integer floats and
the renderings of containers are abstracted (no claim depends on them;
they only need to be deterministic). -/
def pyStr : PyVal → String
  | pnone => "None"
  | pbool b => if b then "True" else "False"
  | pnum q => if q.den = 1 then toString q.num else toString q.num ++ "/" ++ toString q.den
  | pstr s => s
  | plist _ => "<list>"
  | pdict _ => "<dict>"

/-- RMA brand colors used cyclically. -/
def rmaColors : List String := ["#1E3A8A", "#1e40af", "#2563eb", "#3b82f6"]

/-- Guarantee list of the full RMA shape: only garanties whose
`included` is truthy are kept. -/
def rmaGuarantees : List PyVal → Py (List PyVal)
  | [] => pure []
  | g :: gsRest => do
    let inc ← pyGet g "included" (pbool false)
    if truthy inc then do
      let nm ← pyGet g "libelle" (pstr "")
      let inc2 ← pyGet g "included" (pbool false)
      let rest ← rmaGuarantees gsRest
      pure (pdict [("name", nm), ("included", inc2)] :: rest)
    else
      rmaGuarantees gsRest

/-- One plan of the filtered RMA shape (offers carrying `points`): the
pricing blocks hold only `prime_total`; a missing semi-annual offer
falls back to the annual total times `0.52` rounded to 2 decimals. -/
def rmaPlanFiltered (semiO : PyVal) (idx : ℕ) (offer : PyVal) : Py Plan := do
  let annualTotal := pyOr (← pyGet offer "primeTotalTTC" (pnum 0)) (pnum 0)
  let semiTotal ←
    if truthy semiO then pyGet semiO "primeTotalTTC" (pnum 0)
    else pyRound2 (← pyMulC annualTotal (13/25))
  let nm ← pyGet offer "libelle" (pstr ("Plan " ++ toString (idx + 1)))
  let pts ← pyGet offer "points" (plist [])
  let items ← pyIter pts
  let gs := items.map (fun point => pdict [("name", point), ("included", pbool true)])
  pure ⟨nm, pstr ("rma_" ++ toString idx), "RMA Assurance", "rma",
    colorAt rmaColors idx, none,
    ⟨none, none, none, none, annualTotal⟩, ⟨none, none, none, none, semiTotal⟩,
    plist gs, none, pbool true, idx⟩

/-- One plan of the full RMA shape; the old (list-only) shape is the
same body with `semi_offer = None`, so it reuses this definition with
`semiO := pnone`, in which case every semi-annual component is the
annual one times `0.52` rounded to 2 decimals. -/
def rmaPlanFull (semiO : PyVal) (idx : ℕ) (offer : PyVal) : Py Plan := do
  let net := pyOr (← pyGet offer "primeAnnuelleHT" (pnum 0)) (pnum 0)
  let taxes ← pyAdd (pyOr (← pyGet offer "taxes" (pnum 0)) (pnum 0))
    (pyOr (← pyGet offer "taxeParafiscal" (pnum 0)) (pnum 0))
  let tot := pyOr (← pyGet offer "primeAnnuelleTTC" (pnum 0)) (pnum 0)
  let semiNet ←
    if truthy semiO then pyGet semiO "primeAnnuelleHT" (pnum 0)
    else pyRound2 (← pyMulC net (13/25))
  let semiTaxes ←
    if truthy semiO then
      pyAdd (pyOr (← pyGet semiO "taxes" (pnum 0)) (pnum 0))
        (pyOr (← pyGet semiO "taxeParafiscal" (pnum 0)) (pnum 0))
    else pyRound2 (← pyMulC taxes (13/25))
  let semiTot ←
    if truthy semiO then pyGet semiO "primeAnnuelleTTC" (pnum 0)
    else pyRound2 (← pyMulC tot (13/25))
  let nm ← pyGet offer "libelle" (pstr ("Plan " ++ toString (idx + 1)))
  let planId ← pyGet offer "id" (pnum idx)
  let gar ← pyGet offer "garanties" (plist [])
  let items ← pyIter gar
  let gs ← rmaGuarantees items
  let elig ← pyGet offer "eligible" (pbool true)
  pure ⟨nm, pstr (pyStr planId), "RMA Assurance", "rma",
    colorAt rmaColors idx, none,
    ⟨some net, some taxes, none, none, tot⟩,
    ⟨some semiNet, some semiTaxes, none, none, semiTot⟩,
    plist gs, none, elig, idx⟩

/-- One plan of the new (dict) RMA shape: the semi-annual offer is
`semi_annual_data[idx]` when that index exists and otherwise `None`;
offers carrying a `points` key use the filtered builder. -/
def rmaPlanNew (semis : PyVal) (idx : ℕ) (offer : PyVal) : Py Plan := do
  let semiO ← semiAt semis idx pnone
  let isFiltered ← pyContainsS offer "points"
  if isFiltered then rmaPlanFiltered semiO idx offer
  else rmaPlanFull semiO idx offer

/-- Embedding of `parse_rma_response`. -/
def parseRmaResponse (data : PyVal) : Py (List Plan) :=
  if isDict data && dictHasKey data "annual" then
    if !truthy (dictGetD data "annual" (plist [])) ||
        !isList (dictGetD data "annual" (plist [])) then pure []
    else
      buildPlans (rmaPlanNew (dictGetD data "semi_annual" (plist []))) 0
        (asList (dictGetD data "annual" (plist [])))
  else if !truthy data || !isList data then pure []
  else buildPlans (rmaPlanFull pnone) 0 (asList data)

/-! ## AXA normalizer (`parse_axa_response`)

The pack metadata (`AXA_OPTIONS`, `AXA_PACK_CONFIG`,
`get_pack_selectable_fields`, `get_pack_fixed_guarantees` of
`axa_scraper.py`) is static data consulted by the normalizer; the
`formule` field of each config entry is consumed only by the payload
builder for update calls, which no claim touches, and is omitted. -/

/-- One entry of `AXA_PACK_CONFIG`: guarantee code, whether its type is
`select` (otherwise `fixed`), the `options_key` and `default` of select
entries, and the display title. -/
structure AxaGuaranteeCfg where
  code : String
  isSelect : Bool
  optionsKey : String
  dflt : ℚ
  title : String

/-- The static `AXA_OPTIONS` table (label/value option lists). -/
def axaOptions (key : String) : List (String × ℚ) :=
  if key = "defense" then
    [("5 000 DH", 1), ("7 500 DH", 2), ("10 000 DH", 3), ("15 000 DH", 4)]
  else if key = "pfcp" then
    [("F0 : 5000/ 5000/ 1000", 1), ("F1 : 10000/ 10000/ 3000", 2),
     ("F2 : 20000/ 20000/ 4000", 3), ("F3 : 30000/ 30000/ 5000", 4),
     ("F4 : 40000/ 40000/ 6000", 5), ("F5 : 50000/ 50000/ 8000", 6),
     ("F6 : 60000/ 60000/ 9000", 7), ("F7 : 70000/ 70000/ 10000", 8),
     ("F8 : 100000/100000/10000", 9), ("F9 : 120000/120000/12000", 10)]
  else if key = "incendie" then [("SANS", 1)]
  else if key = "vol" then [("5 %", 1)]
  else if key = "glass" then
    [("5000 Min. 300 DH", 1), ("10000 Min. 300 DH", 2), ("15000 Min. 300 DH", 3),
     ("20000 Min. 300 DH", 4), ("25000 Min. 300 DH", 5), ("30000 Min. 300 DH", 6),
     ("40000 Min.300 DH", 7), ("50000 Min.300 DH", 8), ("60000 Min.300 DH", 9),
     ("75000 Min.300 DH", 10), ("100000 Min.300 DH", 11)]
  else if key = "collision" then
    [("Dép. 5% Min 1 000 DH", 2), ("10 000 DH & 5% Min. 1 000 DH", 7),
     ("20 000 DH & 5% Min. 1 000 DH", 9), ("30 000 DH & 5% Min. 1 000 DH", 10)]
  else if key = "all_risk" then
    [("3% & Min. 2500 DH", 1), ("5% & 2500 DH", 2), ("10% & 3500 DH", 4),
     ("10% & 2500 DH", 5), ("20% & 3500 DH", 8), ("20% & 2500 DH", 9),
     ("Cap. Réduit 3% & Min. 2500 DH", 10), ("Cap. Réduit 5% & Min. 2500 DH", 11),
     ("Cap. Réduit 10% & Min. 3500 DH", 13), ("Cap. Réduit 10% & Min. 2500 DH", 14),
     ("Cap. Réduit 20% & Min. 3500 DH", 17), ("Cap. Réduit 20% & Min. 2500 DH", 18)]
  else []

/-- The static `AXA_PACK_CONFIG` table (packs 2–5; empty otherwise,
making both lookup helpers return `[]`). -/
def axaPackConfig (packId : ℤ) : List AxaGuaranteeCfg :=
  if packId = 2 then
    [⟨"1", false, "", 0, "RESPONSABILITÉ CIVILE"⟩,
     ⟨"150", false, "", 0, "ÉVÈNEMENTS CATASTROPHIQUES"⟩,
     ⟨"20", true, "defense", 1, "Défense et Recours"⟩,
     ⟨"500", true, "pfcp", 1, "P.F.C.P"⟩]
  else if packId = 3 then
    [⟨"1", false, "", 0, "RESPONSABILITÉ CIVILE"⟩,
     ⟨"150", false, "", 0, "ÉVÈNEMENTS CATASTROPHIQUES"⟩,
     ⟨"20", false, "", 0, "DÉFENSE ET RECOURS"⟩,
     ⟨"3", true, "incendie", 1, "Incendie"⟩,
     ⟨"4", true, "vol", 1, "Vol"⟩,
     ⟨"500", true, "pfcp", 1, "P.F.C.P"⟩]
  else if packId = 4 then
    [⟨"1", false, "", 0, "RESPONSABILITÉ CIVILE"⟩,
     ⟨"150", false, "", 0, "ÉVÈNEMENTS CATASTROPHIQUES"⟩,
     ⟨"3", true, "incendie", 1, "Incendie"⟩,
     ⟨"4", true, "vol", 1, "Vol"⟩,
     ⟨"5", true, "glass", 1, "Bris de Glaces"⟩,
     ⟨"20", true, "defense", 1, "Défense et Recours"⟩,
     ⟨"500", true, "pfcp", 1, "P.F.C.P"⟩,
     ⟨"35", true, "collision", 2, "Dommages Collision"⟩]
  else if packId = 5 then
    [⟨"1", false, "", 0, "RESPONSABILITÉ CIVILE"⟩,
     ⟨"150", false, "", 0, "ÉVÈNEMENTS CATASTROPHIQUES"⟩,
     ⟨"3", true, "incendie", 1, "Incendie"⟩,
     ⟨"4", true, "vol", 1, "Vol"⟩,
     ⟨"5", true, "glass", 1, "Bris de Glaces"⟩,
     ⟨"20", true, "defense", 1, "Défense et Recours"⟩,
     ⟨"500", true, "pfcp", 1, "P.F.C.P"⟩,
     ⟨"2", true, "all_risk", 1, "Dommages Tous Accidents"⟩]
  else []

/-- Embedding of `get_pack_selectable_fields`. -/
def getPackSelectableFields (packId : ℤ) : PyVal :=
  plist ((axaPackConfig packId).filterMap (fun g =>
    if g.isSelect then
      some (pdict [("code", pstr g.code), ("title", pstr g.title),
        ("options", plist ((axaOptions g.optionsKey).map (fun o => selOption o.1 o.2))),
        ("default", pnum g.dflt)])
    else none))

/-- Embedding of `get_pack_fixed_guarantees`. -/
def getPackFixedGuarantees (packId : ℤ) : PyVal :=
  plist ((axaPackConfig packId).filterMap (fun g =>
    if g.isSelect then none
    else some (pdict [("code", pstr g.code), ("title", pstr g.title),
      ("included", pbool true)])))

/-- AXA plan display names for packs 2–5. -/
def axaPlanNames : List String := ["Basique", "Basique+", "Optimale", "Premium"]

/-- AXA colors used cyclically. -/
def axaColors : List String := ["#1a472a", "#00008F", "#003d7a", "#0066FF"]

/-- Annual pricing block of an AXA quote: every component is copied
from the raw quote (no arithmetic is performed). -/
def axaBlockAnnuel (quote : PyVal) : Py PriceBlock := do
  let net ← pyGet quote "primeNetAnnuel" (pnum 0)
  let taxes ← pyGet quote "taxesAnnuel" (pnum 0)
  let cnpac ← pyGet quote "cnpacAnnuel" (pnum 0)
  let acc ← pyGet quote "accessoireAnnuel" (pnum 0)
  let tot ← pyGet quote "primeTotaleAnnuel" (pnum 0)
  pure ⟨some net, some taxes, some cnpac, some acc, tot⟩

/-- Semi-annual (`Comptant`) pricing block of an AXA quote, likewise
copied verbatim from the raw quote. -/
def axaBlockComptant (quote : PyVal) : Py PriceBlock := do
  let net ← pyGet quote "primeNetComptant" (pnum 0)
  let taxes ← pyGet quote "taxesComptant" (pnum 0)
  let cnpac ← pyGet quote "cnpacComptant" (pnum 0)
  let acc ← pyGet quote "accessoireComptant" (pnum 0)
  let tot ← pyGet quote "primeTotaleComptant" (pnum 0)
  pure ⟨some net, some taxes, some cnpac, some acc, tot⟩

/-- One plan of the new (dict) AXA shape. -/
def axaPlanNew (semis : PyVal) (idx : ℕ) (quote : PyVal) : Py Plan := do
  let semiQ ← semiAt semis idx quote
  let packId : ℤ := ((([2, 3, 4, 5] : List ℤ).get? idx).getD ((idx : ℤ) + 2))
  let annual ← axaBlockAnnuel quote
  let semi ← axaBlockComptant semiQ
  pure ⟨pstr ((axaPlanNames.get? idx).getD ("Plan " ++ toString (idx + 1))),
    pstr ("axa_" ++ toString idx), "AXA Assurance", "axa", colorAt axaColors idx,
    some packId, annual, semi, getPackFixedGuarantees packId,
    some (getPackSelectableFields packId), pbool true, idx⟩

/-- One plan of the old (list-only) AXA shape: the semi-annual block is
read from the same quote's `Comptant` keys. -/
def axaPlanOld (idx : ℕ) (quote : PyVal) : Py Plan := do
  let packId : ℤ := ((([2, 3, 4, 5] : List ℤ).get? idx).getD ((idx : ℤ) + 2))
  let annual ← axaBlockAnnuel quote
  let semi ← axaBlockComptant quote
  pure ⟨pstr ((axaPlanNames.get? idx).getD ("Plan " ++ toString (idx + 1))),
    pstr ("axa_" ++ toString idx), "AXA Assurance", "axa", colorAt axaColors idx,
    some packId, annual, semi, getPackFixedGuarantees packId,
    some (getPackSelectableFields packId), pbool true, idx⟩

/-- Embedding of `parse_axa_response`: returns the plans and the
optional session data (`base_payload`/`id_quotation`/`id_lead`). -/
def parseAxaResponse (data : PyVal) : Py (List Plan × Option PyVal) :=
  if isDict data && dictHasKey data "annual" then
    if !truthy (dictGetD data "annual" (plist [])) ||
        !isList (dictGetD data "annual" (plist [])) then pure ([], none)
    else do
      let plans ← buildPlans (axaPlanNew (dictGetD data "semi_annual" (plist []))) 0
        (asList (dictGetD data "annual" (plist [])))
      pure (plans,
        if truthy (dictGetD data "base_payload" pnone) then
          some (pdict [("base_payload", dictGetD data "base_payload" pnone),
            ("id_quotation", dictGetD data "id_quotation" pnone),
            ("id_lead", dictGetD data "id_lead" pnone)])
        else none)
  else if !truthy data || !isList data then pure ([], none)
  else do
    let plans ← buildPlans axaPlanOld 0 (asList data)
    pure (plans, none)

/-! ## Aggregator (`fetch_from_provider`, `get_all_quotes`)

Scraper I/O is the oracle `behave`; the `as_completed` collection
order of the thread pool is the `arrival` parameter, an arbitrary
permutation of the effective provider codes. -/

/-- Registry order of `SCRAPER_FUNCTIONS` (dict insertion order). -/
def scraperCodes : List String := ["axa", "mcma", "rma", "sanlam"]

/-- Branding metadata of one provider (`PROVIDER_INFO`). -/
structure ProviderInfo where
  name : String
  color : String
  logo : String

/-- The static `PROVIDER_INFO` table. -/
def providerInfo (code : String) : Option ProviderInfo :=
  if code = "axa" then some ⟨"AXA Assurance", "#00008F",
    "https://upload.wikimedia.org/wikipedia/commons/thumb/9/90/Logo_of_AXA.svg/1280px-Logo_of_AXA.svg.png"⟩
  else if code = "sanlam" then some ⟨"Sanlam Assurance", "#0066B3",
    "https://www.sanlam.ma/themes/custom/flavor/logo.svg"⟩
  else if code = "rma" then some ⟨"RMA Assurance", "#1E3A8A",
    "https://direct.rmaassurance.com/assets/images/logo-rma.svg"⟩
  else if code = "mcma" then some ⟨"MAMDA-MCMA", "#2fd0a7",
    "https://www.mamda-mcma.ma/themes/custom/mamda/logo.svg"⟩
  else none

/-- Outcome oracle for the scraper functions: per provider code and
request params, either the raw response or the raised exception. -/
def Behavior : Type := String → PyVal → Except String PyVal

/-- Per-provider parse dispatch inside `fetch_from_provider`'s `try`
block: returns `(plans, axa_session_data, mcma_session_data)`. -/
def parseForProvider (code : String) (raw : PyVal) :
    Py (List Plan × Option PyVal × Option PyVal) :=
  if code = "sanlam" then do
    let ps ← parseSanlamResponse raw
    pure (ps, none, none)
  else if code = "mcma" then do
    let (ps, s) ← parseMcmaResponse raw
    pure (ps, none, s)
  else if code = "rma" then do
    let ps ← parseRmaResponse raw
    pure (ps, none, none)
  else if code = "axa" then do
    let (ps, s) ← parseAxaResponse raw
    pure (ps, s, none)
  else pure ([], none, none)

/-- Result dict of `fetch_from_provider` for one provider. -/
structure ProviderResult where
  provider_name : String
  provider_code : String
  provider_color : String
  provider_logo : String
  raw_data : Option PyVal
  plans : List Plan
  error : Option String
  axa_session_data : Option PyVal
  mcma_session_data : Option PyVal
  deriving Repr

/-- Embedding of `fetch_from_provider` (database logging, only active
when a `user_id` is supplied and swallowed by its own `try/except`, is
not modelled): an unknown code yields `Scraper not found`; an exception
raised by the scraper call or the parse is caught and stored in the
`error` field with an empty plan list; a successful parse stores
`error = None` when plans are non-empty and `No plans returned`
otherwise. -/
def fetchFromProvider (behave : Behavior) (code : String) (params : PyVal) :
    ProviderResult :=
  let meta := providerInfo code
  let nm := (meta.map (·.name)).getD code
  let color := (meta.map (·.color)).getD "#000000"
  let logo := (meta.map (·.logo)).getD ""
  if code ∈ scraperCodes then
    match behave code params with
    | .error e => ⟨nm, code, color, logo, none, [], some e, none, none⟩
    | .ok raw =>
      match parseForProvider code raw with
      | .error e => ⟨nm, code, color, logo, none, [], some e, none, none⟩
      | .ok (plans, axaS, mcmaS) =>
        ⟨nm, code, color, logo, some raw, plans,
          if plans.isEmpty then some "No plans returned" else none, axaS, mcmaS⟩
  else ⟨nm, code, color, logo, none, [], some "Scraper not found", none, none⟩

/-- Truthiness of `result.get('error')` (an empty error string is
falsy, exactly as in Python). -/
def errTruthy (r : ProviderResult) : Bool :=
  match r.error with
  | some s => decide (s ≠ "")
  | none => false

/-- Effective provider codes: the registry filtered by a non-empty
selected list, the whole registry otherwise. -/
def effectiveProviderCodes (selected : PyVal) : List String :=
  match selected with
  | plist xs =>
    if xs.length > 0 then
      scraperCodes.filter (fun c => xs.any (fun x => pyBeq x (pstr c)))
    else scraperCodes
  | _ => scraperCodes

/-- Per-provider entry of the aggregate response (the `error` key is
present exactly when the fetched result's error is truthy). -/
structure ProviderEntry where
  name : String
  code : String
  color : String
  logo : String
  plans : List Plan
  plan_count : ℕ
  error : Option String
  deriving Repr

/-- Summary block of the aggregate response (`total_fetch_time` is a
wall-clock reading and is not modelled). -/
structure AggSummary where
  total_providers : ℕ
  providers_with_results : ℕ
  total_plans : ℕ
  deriving Repr

/-- Aggregate response of `get_all_quotes`. -/
structure AggResponse where
  success : Bool
  params : PyVal
  providers : List ProviderEntry
  summary : AggSummary
  errors : Option (List String)
  axa_session_data : Option PyVal
  mcma_session_data : Option PyVal
  deriving Repr

/-- Provider entry built from one fetched result. -/
def mkEntry (r : ProviderResult) : ProviderEntry :=
  ⟨r.provider_name, r.provider_code, r.provider_color, r.provider_logo,
    r.plans, r.plans.length, if errTruthy r then r.error else none⟩

/-- Error strings collected into the response's `errors` list. -/
def errorStrings (results : List ProviderResult) : List String :=
  results.filterMap (fun r =>
    if errTruthy r then some (r.provider_name ++ ": " ++ r.error.getD "") else none)

/-- Truthy session data of the given kind, last result winning, as the
collection loop overwrites. -/
def lastSession (get : ProviderResult → Option PyVal) (code : String)
    (results : List ProviderResult) : Option PyVal :=
  results.foldl (fun acc r =>
    if r.provider_code = code ∧ (match get r with | some v => truthy v | none => false) = true
    then get r else acc) none

/-- Embedding of `get_all_quotes`.  With an empty effective provider
set the underlying `ThreadPoolExecutor(max_workers=0)` raises
`ValueError`; otherwise one result is fetched per effective code and
collected in completion order `arrival` (theorems assume `arrival` is
a permutation of the effective codes). -/
def getAllQuotes (behave : Behavior) (params : PyVal) (selected : PyVal)
    (arrival : List String) : Except String AggResponse :=
  let codes := effectiveProviderCodes selected
  if codes.isEmpty then .error "ValueError: max_workers must be greater than 0"
  else
    let results := arrival.map (fun c => fetchFromProvider behave c params)
    let errs := errorStrings results
    .ok ⟨decide (errs.length < codes.length), params, results.map mkEntry,
      ⟨results.length, results.countP (fun r => !r.plans.isEmpty),
        (results.map (fun r => r.plans.length)).sum⟩,
      if errs.isEmpty then none else some errs,
      lastSession (·.axa_session_data) "axa" results,
      lastSession (·.mcma_session_data) "mcma" results⟩

/-! ## Field mapper (`scrapers/field_mapper.py`)

Wall-clock readings are the explicit `Clock` parameter (the naive
`datetime.now()` date and the `Africa/Casablanca` date), and the
random identity drawn by `generate_random_identity` is the explicit
`Identity` parameter. -/

/-- A calendar date (as produced by `datetime`). -/
structure Date where
  year : ℕ
  month : ℕ
  day : ℕ
  deriving Repr, DecidableEq

/-- Clock readings visible to one mapper call. -/
structure Clock where
  localDate : Date
  moroccoDate : Date
  deriving Repr, DecidableEq

/-- The dummy identity produced by `generate_random_identity`. -/
structure Identity where
  phone : String
  plate : String
  deriving Repr, DecidableEq

/-- Decimal digit characters of a list of digits. -/
def digitsStr (ds : List (Fin 10)) : String :=
  String.mk (ds.map (fun d => Char.ofNat (48 + d.val)))

/-- Embedding of `generate_random_identity`, parameterized on the
random draws: phone `06` plus 8 digits; plate 5 digits, `-`, `F` or
`A`, `-`, 2 digits. -/
def genRandomIdentity (phoneDigits plate5 plate2 : List (Fin 10)) (letterA : Bool) :
    Identity :=
  ⟨"06" ++ digitsStr phoneDigits,
    digitsStr plate5 ++ "-" ++ (if letterA then "A" else "F") ++ "-" ++ digitsStr plate2⟩

/-- Zero-padded two-digit rendering (`%d`, `%m`). -/
def pad2 (n : ℕ) : String :=
  if n < 10 then "0" ++ toString n else toString n

/-- Zero-padded four-digit rendering (`%Y`). -/
def pad4 (n : ℕ) : String :=
  if n < 10 then "000" ++ toString n
  else if n < 100 then "00" ++ toString n
  else if n < 1000 then "0" ++ toString n
  else toString n

/-- `strftime("%Y-%m-%d")`. -/
def dateYMD (d : Date) : String :=
  pad4 d.year ++ "-" ++ pad2 d.month ++ "-" ++ pad2 d.day

/-- `strftime("%d-%m-%Y")`. -/
def dateDMY (d : Date) : String :=
  pad2 d.day ++ "-" ++ pad2 d.month ++ "-" ++ pad4 d.year

/-- Numeric value of a non-empty all-digit character list. -/
def digitsToNat : List Char → Option ℕ
  | [] => none
  | cs =>
    if cs.all Char.isDigit then
      some (cs.foldl (fun acc c => 10 * acc + (c.toNat - 48)) 0)
    else none

/-- Gregorian leap year. -/
def isLeapYear (y : ℕ) : Bool :=
  (y % 4 == 0 && y % 100 != 0) || y % 400 == 0

/-- Days in a month, as validated by `strptime`. -/
def daysInMonth (y m : ℕ) : ℕ :=
  if m = 2 then (if isLeapYear y then 29 else 28)
  else if m = 4 ∨ m = 6 ∨ m = 9 ∨ m = 11 then 30
  else 31

/-- Validating parse of `strptime(s, "%Y-%m-%d")`: up to 4 year
digits, month and day in calendar range. -/
def parseYMD (s : String) : Option Date :=
  match s.splitOn "-" with
  | [ys, ms, ds] => do
    let y ← digitsToNat ys.toList
    let m ← digitsToNat ms.toList
    let d ← digitsToNat ds.toList
    if ys.length ≤ 4 ∧ 1 ≤ m ∧ m ≤ 12 ∧ 1 ≤ d ∧ d ≤ daysInMonth y m then
      some ⟨y, m, d⟩
    else none
  | _ => none

/-- Embedding of `format_date`: falsy input gives `""`; a parseable
`YYYY-MM-DD` string is re-rendered in the requested format; any other
value (including non-strings, whose `strptime` raises a caught
exception) is returned unchanged. -/
def formatDatePy (v : PyVal) (fmt : String) : PyVal :=
  if !truthy v then pstr ""
  else
    match v with
    | pstr s =>
      match parseYMD s with
      | some d =>
        if fmt = "DD-MM-YYYY" then pstr (dateDMY d)
        else if fmt = "YYYY-MM-DD" then pstr (dateYMD d)
        else pstr s
      | none => pstr s
    | _ => v

/-- Python `v.lower()`: strings only, `AttributeError` otherwise. -/
def pyLower (v : PyVal) : Py String :=
  match v with
  | pstr s => .ok s.toLower
  | _ => .error "AttributeError: object has no attribute lower"

/-- Python `v.upper()`: strings only, `AttributeError` otherwise. -/
def pyUpper (v : PyVal) : Py String :=
  match v with
  | pstr s => .ok s.toUpper
  | _ => .error "AttributeError: object has no attribute upper"

/-- Truncation toward zero (`int(float)`), computed structurally on
the reduced numerator and denominator. -/
def ratTruncToInt (q : ℚ) : ℤ :=
  q.num.tdiv (q.den : ℤ)

/-- Python `int(s)` on a string: optional surrounding whitespace,
optional sign, decimal digits. -/
def parseIntStr (s : String) : Option ℤ :=
  let t := s.trim
  let (sign, digits) :=
    if t.startsWith "-" then ((-1 : ℤ), t.drop 1)
    else if t.startsWith "+" then ((1 : ℤ), t.drop 1)
    else ((1 : ℤ), t)
  (digitsToNat digits.toList).map (fun n => sign * n)

/-- Python `int(v)`: numbers truncate toward zero, strings parse
(`ValueError` on failure), anything else raises `TypeError`. -/
def pyInt (v : PyVal) : Py ℤ :=
  match v with
  | pnum q => .ok (ratTruncToInt q)
  | pbool b => .ok (if b then 1 else 0)
  | pstr s =>
    match parseIntStr s with
    | some n => .ok n
    | none => .error "ValueError: invalid literal for int"
  | _ => .error "TypeError: int argument must be a string or a number"

/-- Lookup in a string-keyed mapping table with a string key. -/
def tableGetS {α : Type} (table : List (String × α)) (k : String) (dflt : α) : α :=
  ((table.find? (fun kv => kv.1 == k)).map (·.2)).getD dflt

/-- Lookup in a string-keyed mapping table with a dynamic key
(`PLATE_TYPE_MAPPING[...].get(form value, default)`): unhashable keys
raise `TypeError`, hashable non-matching keys give the default. -/
def strTableGet (table : List (String × String)) (key : PyVal) (dflt : String) :
    Py String :=
  match key with
  | plist _ => .error "TypeError: unhashable type"
  | pdict _ => .error "TypeError: unhashable type"
  | pstr s => .ok (tableGetS table s dflt)
  | _ => .ok dflt

/-- `BRAND_CODE_MAPPING['sanlam']` (the only brand sub-table the
mappers consult; the payload ultimately hardcodes `"brand": "8"`, so
the looked-up code is a dead store, kept for fidelity). -/
def brandCodeSanlam : List (String × String) :=
  [("renault", "2078"), ("peugeot", "3016"), ("citroen", "2054"),
   ("volkswagen", "2900"), ("ford", "2300"), ("bmw", "1976"),
   ("mercedes", "10819"), ("audi", "2003"), ("hyundai", "2500"),
   ("kia", "2700"), ("toyota", "2860"), ("dacia", "2100"),
   ("fiat", "2200"), ("nissan", "2800"), ("mazda", "2700")]

/-- `FUEL_MAPPING['sanlam']`. -/
def fuelMappingSanlam : List (String × String) :=
  [("essence", "E"), ("diesel", "D"), ("hybrid-e", "S"), ("hybrid-d", "M"),
   ("electrique", "L")]

/-- `FUEL_MAPPING['axa']`. -/
def fuelMappingAxa : List (String × String) :=
  [("essence", "E"), ("diesel", "G"), ("hybrid-e", "E"), ("hybrid-d", "G"),
   ("electrique", "W")]

/-- `FUEL_MAPPING['mcma']` (electric maps to `None`). -/
def fuelMappingMcma : List (String × PyVal) :=
  [("essence", pstr "Essence"), ("diesel", pstr "Diesel"),
   ("hybrid-e", pstr "Essence"), ("hybrid-d", pstr "Diesel"),
   ("electrique", pnone)]

/-- `PLATE_TYPE_MAPPING['sanlam']`. -/
def plateTypeSanlam : List (String × String) :=
  [("standard", "3"), ("ww", "2")]

/-- Embedding of `FieldMapper.map_to_sanlam`. -/
def mapToSanlam (fd : PyVal) (dummy : Identity) (clock : Clock) : Py PyVal :=
  match fd with
  | pdict _ => do
    let fuel ← pyLower (dictGetD fd "carburant" (pstr "diesel"))
    let brand ← pyLower (dictGetD fd "marque" (pstr "mercedes"))
    let phone0 := dummy.phone
    let phone :=
      if phone0.startsWith "0" then "+212" ++ phone0.drop 1
      else if !phone0.startsWith "+212" then "+212" ++ phone0
      else phone0
    let _brandCode := tableGetS brandCodeSanlam brand "10819"
    let regFormat ← strTableGet plateTypeSanlam (dictGetD fd "type_plaque" (pstr "standard")) "3"
    let vn ← pyInt (dictGetD fd "valeur_neuf" (pnum 650000))
    let va ← pyInt (dictGetD fd "valeur_actuelle" (pnum 650000))
    pure (pdict [
      ("driver", pdict [
        ("licenseNumber", pstr "1111111111"), ("licenseDate", pstr "2026-01-16"),
        ("licenseCategory", pstr "B"),
        ("lastName", dictGetD fd "nom" (pstr "Client")),
        ("firstName", dictGetD fd "prenom" (pstr "Test")),
        ("birthDate", formatDatePy (dictGetD fd "date_naissance" pnone) "YYYY-MM-DD"),
        ("CIN", pstr "BJ1111111"), ("sex", pstr "M"), ("nature", pstr "1"),
        ("adress", pstr "sample addresse"),
        ("city", dictGetD fd "ville" (pstr "Casablanca")),
        ("phoneNumber", pstr phone), ("title", pstr "0"),
        ("profession", pstr "12"), ("isDriver", pbool true)]),
      ("subscriber", pdict [
        ("isDriver", pbool true), ("nature", pstr "1"), ("CIN", pstr "BJ1111111"),
        ("civility", pstr "0"),
        ("lastName", dictGetD fd "nom" (pstr "Client")),
        ("firstName", dictGetD fd "prenom" (pstr "Test")),
        ("birthDate", formatDatePy (dictGetD fd "date_naissance" pnone) "YYYY-MM-DD"),
        ("adress", pstr "sample addresse"),
        ("city", dictGetD fd "ville" (pstr "Casablanca")),
        ("phoneNumber", pstr phone),
        ("licenseNumber", pstr "1111111111"), ("licenseDate", pstr "2004-01-16"),
        ("licenseCategory", pstr "B"), ("profession", pstr "12"),
        ("postalCode", pstr "20300"), ("sex", pstr "M")]),
      ("vehicle", pdict [
        ("registrationNumber", pstr dummy.plate), ("brand", pstr "8"),
        ("horsePower", pstr (pyStr (dictGetD fd "puissance_fiscale" (pnum 6)))),
        ("model", pstr "Autres"), ("usageCode", pstr "1"),
        ("registrationFormat", pstr regFormat),
        ("newValue", pnum (vn : ℚ)),
        ("combustion", pstr (tableGetS fuelMappingSanlam fuel "D")),
        ("circulationDate", formatDatePy (dictGetD fd "date_mec" pnone) "YYYY-MM-DD"),
        ("marketValue", pnum (va : ℚ)), ("seatsNumber", pnum 5)]),
      ("policy", pdict [
        ("startDate", pstr (dateYMD clock.localDate)), ("endDate", pstr "2027-01-17"),
        ("maturityContractType", pstr "2"), ("duration", pnum 12)]),
      ("agent", pdict [("agentkey", dictGetD fd "agent_key" (pstr "40213"))]),
      ("recaptcha", pstr "")])
  | _ => .error "AttributeError: object has no attribute get"

/-- Embedding of `FieldMapper.map_to_axa`. -/
def mapToAxa (fd : PyVal) (dummy : Identity) (clock : Clock) : Py PyVal :=
  match fd with
  | pdict _ => do
    let fuel ← pyLower (dictGetD fd "carburant" (pstr "diesel"))
    let futureDate := dateDMY clock.moroccoDate
    let vn ← pyInt (dictGetD fd "valeur_neuf" (pnum 400000))
    let va ← pyInt (dictGetD fd "valeur_actuelle" (pnum 300000))
    let brandName ← pyUpper (dictGetD fd "marque" (pstr "RENAULT"))
    pure (pdict [
      ("contrat", pdict [
        ("codeIntermediaire", pnum 592), ("codeProduit", pnum 115),
        ("nombreFraction", pnum 0), ("typeFractionnement", pstr "f"),
        ("typeAvenant", pnum 1), ("sousAvenant", pnum 1),
        ("dateEffet", pstr futureDate), ("typeContrat", pstr "DF"),
        ("modePaiement", pstr "12"), ("dateEcheance", pstr "0"),
        ("dateExpiration", pstr "0"), ("typePersonne", pstr "P"),
        ("assureEstConducteur", pstr "O"), ("identifiant", pstr "a0"),
        ("dateNaissanceConducteur",
          formatDatePy (dictGetD fd "date_naissance" pnone) "DD-MM-YYYY"),
        ("isFonctionnaire", pstr "N"), ("codeConvention", pnum 0),
        ("newClient", pstr "O"),
        ("nom", dictGetD fd "nom" (pstr "Client")),
        ("prenom", dictGetD fd "prenom" (pstr "Test")),
        ("dateNaissanceAssure",
          formatDatePy (dictGetD fd "date_naissance" pnone) "DD-MM-YYYY"),
        ("tauxReduction", pnum 0)]),
      ("vehicule", pdict [
        ("codeUsage", pstr "1B"),
        ("dateMisCirculation", formatDatePy (dictGetD fd "date_mec" pnone) "DD-MM-YYYY"),
        ("matricule", pstr dummy.plate),
        ("valeurNeuf", pnum (vn : ℚ)), ("valeurVenale", pnum (va : ℚ)),
        ("valeurAmenagement", pnum 0),
        ("energie", pstr (tableGetS fuelMappingAxa fuel "G")),
        ("puissanceFiscale", dictGetD fd "puissance_fiscale" (pnum 6)),
        ("codeCarrosserie", pstr "B1"), ("codeMarque", pnum 7),
        ("nombrePlace", dictGetD fd "nombre_places" (pnum 5)),
        ("dateMutation", pstr "0")]),
      ("leadInfos", pdict [
        ("city", pstr "CASABLANCA"),
        ("phoneNumber", pstr dummy.phone),
        ("licenceDate", formatDatePy (dictGetD fd "date_permis" pnone) "DD-MM-YYYY"),
        ("brandName", pstr brandName),
        ("intermediateName", pstr "AKER ASSURANCE"),
        ("marketingConsent", pbool true), ("cguConsent", pbool true)])])
  | _ => .error "AttributeError: object has no attribute get"

/-- Embedding of `FieldMapper.map_to_rma` (plate type is forced to
`standard`; the dummy plate and phone fill `immatriculation` and
`telephone`). -/
def mapToRma (fd : PyVal) (dummy : Identity) : Py PyVal :=
  match fd with
  | pdict _ => .ok (pdict [
      ("nom", dictGetD fd "nom" (pstr "Client")),
      ("prenom", dictGetD fd "prenom" (pstr "Test")),
      ("carburant", dictGetD fd "carburant" (pstr "diesel")),
      ("puissance_fiscale", dictGetD fd "puissance_fiscale" (pnum 6)),
      ("date_mec", dictGetD fd "date_mec" (pstr "2020-01-01")),
      ("type_plaque", pstr "standard"),
      ("immatriculation", pstr dummy.plate),
      ("valeur_neuf", dictGetD fd "valeur_neuf" (pnum 200000)),
      ("valeur_actuelle", dictGetD fd "valeur_actuelle" (pnum 150000)),
      ("nombre_places", dictGetD fd "nombre_places" (pnum 5)),
      ("date_naissance", dictGetD fd "date_naissance" (pstr "1990-01-01")),
      ("telephone", pstr dummy.phone),
      ("date_permis", dictGetD fd "date_permis" (pstr "2010-01-01")),
      ("ville", dictGetD fd "ville" (pstr "CASABLANCA"))])
  | _ => .error "AttributeError: object has no attribute get"

/-- Embedding of `FieldMapper.map_to_mcma` (no randomized filler). -/
def mapToMcma (fd : PyVal) : Py PyVal :=
  match fd with
  | pdict _ => do
    let fuel ← pyLower (dictGetD fd "carburant" (pstr "diesel"))
    let va ← pyInt (dictGetD fd "valeur_actuelle" (pnum 150000))
    let vn ← pyInt (dictGetD fd "valeur_neuf" (pnum 200000))
    pure (pdict [
      ("dateOfCirculation", formatDatePy (dictGetD fd "date_mec" pnone) "YYYY-MM-DD"),
      ("horsePower", dictGetD fd "puissance_fiscale" (pnum 6)),
      ("fuel", tableGetS fuelMappingMcma fuel (pstr "Diesel")),
      ("valueOfVehicle", pnum (va : ℚ)),
      ("valueOfNewVehicle", pnum (vn : ℚ)),
      ("agreeToTerms", pbool true)])
  | _ => .error "AttributeError: object has no attribute get"

/-- Embedding of `FieldMapper.map_for_scraper`: dispatch on the
lowercased provider code, defaulting to the form data unchanged. -/
def mapForScraper (fd : PyVal) (provider : String) (dummy : Identity)
    (clock : Clock) : Py PyVal :=
  let p := provider.toLower
  if p = "sanlam" then mapToSanlam fd dummy clock
  else if p = "axa" then mapToAxa fd dummy clock
  else if p = "rma" then mapToRma fd dummy
  else if p = "mcma" then mapToMcma fd
  else .ok fd

/-! ## Serialized automation queue (`rma_browser_manager.py`)

Small-step model of `RMABrowserManager`.  Each submitter thread runs
`scrape`: it checks `self._running` (`atCheckRunning`), possibly enters
`start()` whose own check (`atStartCheck`) and set-and-spawn
(`atSpawn`) are separate atomic actions because `start` takes no lock,
then enqueues its job (`atEnqueue`) and blocks on the job's
`done_event` (`waiting`), returning either the stored result
(`gotResult`) or the timeout outcome (`gotTimeout`).  Each worker
thread loops in `_process_queue`: it dequeues one item (`widle` →
`wgot`), acquires `_browser_lock` and runs `_execute_scrape` (`wexec`,
logged as `execStart`), and on success stores the result, sets the
done event and releases the lock (`execEnd`).  When the scripted
workflow raises, `_execute_scrape`'s handler calls `_close_browser()`,
which tries to acquire the non-reentrant `_browser_lock` again
(`wclosing`); the `wCloseAcquire` transition models that acquisition,
enabled only when the lock is free.  Whether a job's workflow raises
is the environment parameter `failing`.  Shutdown (`stop`) is outside
every claim and not modelled. -/

/-- Observable events of the queue model. -/
inductive QEvent where
  | enq : ℕ → QEvent
  | execStart : ℕ → QEvent
  | execEnd : ℕ → QEvent
  deriving Repr, DecidableEq

/-- Program counter of one submitter thread inside `scrape`. -/
inductive SubSt where
  | atCheckRunning : ℕ → SubSt
  | atStartCheck : ℕ → SubSt
  | atSpawn : ℕ → SubSt
  | atEnqueue : ℕ → SubSt
  | waiting : ℕ → SubSt
  | gotResult : ℕ → SubSt
  | gotTimeout : ℕ → SubSt
  deriving Repr, DecidableEq

/-- Program counter of one worker thread inside `_process_queue`. -/
inductive WSt where
  | widle : WSt
  | wgot : ℕ → WSt
  | wexec : ℕ → WSt
  | wclosing : ℕ → WSt
  deriving Repr, DecidableEq

/-- Global state of the browser manager model. -/
structure QState where
  running : Bool
  subs : List SubSt
  workers : List WSt
  queue : List ℕ
  lockOwner : Option ℕ
  doneSet : List ℕ
  log : List QEvent
  deriving Repr, DecidableEq

/-- One atomic step of the queue system. -/
inductive QStep (failing : ℕ → Bool) : QState → QState → Prop where
  | subCheckRunning (s : QState) (i j : ℕ)
      (h : s.subs.get? i = some (.atCheckRunning j)) :
      QStep failing s { s with
        subs := s.subs.set i (if s.running then .atEnqueue j else .atStartCheck j) }
  | subStartCheck (s : QState) (i j : ℕ)
      (h : s.subs.get? i = some (.atStartCheck j)) :
      QStep failing s { s with
        subs := s.subs.set i (if s.running then .atEnqueue j else .atSpawn j) }
  | subSpawn (s : QState) (i j : ℕ)
      (h : s.subs.get? i = some (.atSpawn j)) :
      QStep failing s { s with
        running := true,
        workers := s.workers ++ [.widle],
        subs := s.subs.set i (.atEnqueue j) }
  | subEnqueue (s : QState) (i j : ℕ)
      (h : s.subs.get? i = some (.atEnqueue j)) :
      QStep failing s { s with
        queue := s.queue ++ [j],
        log := s.log ++ [.enq j],
        subs := s.subs.set i (.waiting j) }
  | subCollect (s : QState) (i j : ℕ)
      (h : s.subs.get? i = some (.waiting j)) (hd : j ∈ s.doneSet) :
      QStep failing s { s with subs := s.subs.set i (.gotResult j) }
  | subTimeout (s : QState) (i j : ℕ)
      (h : s.subs.get? i = some (.waiting j)) :
      QStep failing s { s with subs := s.subs.set i (.gotTimeout j) }
  | wDequeue (s : QState) (w j : ℕ) (rest : List ℕ)
      (hw : s.workers.get? w = some .widle) (hq : s.queue = j :: rest) :
      QStep failing s { s with workers := s.workers.set w (.wgot j), queue := rest }
  | wAcquire (s : QState) (w j : ℕ)
      (hw : s.workers.get? w = some (.wgot j)) (hl : s.lockOwner = none) :
      QStep failing s { s with
        workers := s.workers.set w (.wexec j),
        lockOwner := some w,
        log := s.log ++ [.execStart j] }
  | wComplete (s : QState) (w j : ℕ)
      (hw : s.workers.get? w = some (.wexec j)) (hf : failing j = false) :
      QStep failing s { s with
        workers := s.workers.set w .widle,
        lockOwner := none,
        doneSet := s.doneSet ++ [j],
        log := s.log ++ [.execEnd j] }
  | wFail (s : QState) (w j : ℕ)
      (hw : s.workers.get? w = some (.wexec j)) (hf : failing j = true) :
      QStep failing s { s with workers := s.workers.set w (.wclosing j) }
  | wCloseAcquire (s : QState) (w j : ℕ)
      (hw : s.workers.get? w = some (.wclosing j)) (hl : s.lockOwner = none) :
      QStep failing s { s with
        workers := s.workers.set w .widle,
        lockOwner := none,
        doneSet := s.doneSet ++ [j],
        log := s.log ++ [.execEnd j] }

/-- Reachability of the queue system. -/
def QReach (failing : ℕ → Bool) : QState → QState → Prop :=
  Relation.ReflTransGen (QStep failing)

/-- Initial state: manager constructed but worker not yet started, one
submitter per job about to call `scrape`. -/
def mkInit (jobs : List ℕ) : QState :=
  ⟨false, jobs.map .atCheckRunning, [], [], none, [], []⟩

/-- Jobs enqueued, in order, according to the event log. -/
def enqSeq (log : List QEvent) : List ℕ :=
  log.filterMap (fun e => match e with | .enq j => some j | _ => none)

/-- Jobs whose execution started, in order, according to the log. -/
def startSeq (log : List QEvent) : List ℕ :=
  log.filterMap (fun e => match e with | .execStart j => some j | _ => none)

/-- Jobs dequeued by some worker but not yet started. -/
def heldJobs (ws : List WSt) : List ℕ :=
  ws.filterMap (fun w => match w with | .wgot j => some j | _ => none)

/-- Whether a worker in this state holds `_browser_lock`. -/
def holdsLock : WSt → Bool
  | .wexec _ => true
  | .wclosing _ => true
  | _ => false

/-! ## Auxiliary predicates and concrete instances used by the claims -/

/-- Numeric view of an optional pricing component: an absent key
contributes `0` to the invariant sum, a present non-numeric value has
no numeric view. -/
def optNum : Option PyVal → Option ℚ
  | none => some 0
  | some v => toNum v

/-- Gap `total - (net + taxes + cnpac + accessoire)` of a pricing
block, when all components are numeric. -/
def blockGap (b : PriceBlock) : Option ℚ :=
  match optNum b.prime_net, optNum b.taxes, optNum b.cnpac, optNum b.accessoire,
      toNum b.prime_total with
  | some n, some t, some c, some a, some tot => some (tot - (n + t + c + a))
  | _, _, _, _, _ => none

/-- The per-cadence pricing invariant: all components numeric and
`total == net + taxes + ancillary fees` within `0.01`. -/
def BlockInv (b : PriceBlock) : Prop :=
  ∃ g, blockGap b = some g ∧ |g| ≤ 1/100

/-- FIFO start order as the claim states it: whenever job `a` is
enqueued before job `b` and `b`'s execution has started, `a`'s
execution started earlier. -/
def fifoStartOrder (log : List QEvent) : Prop :=
  ∀ a b : ℕ,
    (∃ l1 l2 l3, log = l1 ++ QEvent.enq a :: l2 ++ QEvent.enq b :: l3) →
    QEvent.execStart b ∈ log →
    ∃ m1 m2 m3, log = m1 ++ QEvent.execStart a :: m2 ++ QEvent.execStart b :: m3

/-- Replace the value at a key of a dict (other values unchanged). -/
def dictSet (v : PyVal) (k : String) (x : PyVal) : PyVal :=
  match v with
  | pdict kvs => pdict (kvs.map (fun kv => if kv.1 == k then (kv.1, x) else kv))
  | _ => v

/-- Replace the value at a two-level key path of a dict. -/
def dictSetIn (v : PyVal) (k1 k2 : String) (x : PyVal) : PyVal :=
  match v with
  | pdict kvs => pdict (kvs.map (fun kv =>
      if kv.1 == k1 then (kv.1, dictSet kv.2 k2 x) else kv))
  | _ => v

/-- Read a value along a key path (total, defaulting to `None`). -/
def dictGetPath : PyVal → List String → PyVal
  | v, [] => v
  | v, k :: ks => dictGetPath (dictGetD v k pnone) ks

/-- Erase the documented randomized filler fields of a mapped payload:
the dummy phone number and plate registration, at the positions each
provider payload carries them. -/
def scrubFiller (provider : String) (payload : PyVal) : PyVal :=
  if provider = "sanlam" then
    dictSetIn (dictSetIn (dictSetIn payload
      "driver" "phoneNumber" pnone)
      "subscriber" "phoneNumber" pnone)
      "vehicle" "registrationNumber" pnone
  else if provider = "axa" then
    dictSetIn (dictSetIn payload "vehicule" "matricule" pnone)
      "leadInfos" "phoneNumber" pnone
  else if provider = "rma" then
    dictSet (dictSet payload "immatriculation" pnone) "telephone" pnone
  else payload

/-- Behavior oracle raising the given exception for every provider. -/
def errBehave (msg : String) : Behavior := fun _ _ => .error msg

/-- Behavior oracle returning the given raw response for every
provider. -/
def okBehave (raw : PyVal) : Behavior := fun _ _ => .ok raw

/-- Sanlam raw response in the new (dict) shape. -/
def sanlamShapeNew : PyVal :=
  pdict [("annual", plist [pdict [("name", pstr "Formule 1"),
      ("primeHT", pnum 1000), ("priceTTC", pnum 1200),
      ("coverages", plist [pdict [("coverageName", pstr "RC"), ("checked", pbool true)]])]]),
    ("semi_annual", plist [pdict [("name", pstr "Formule 1"),
      ("primeHT", pnum 520), ("priceTTC", pnum 624)]])]

/-- Sanlam raw response in the old (list-only) shape. -/
def sanlamShapeOld : PyVal :=
  plist [pdict [("primeHT", pnum 1000), ("priceTTC", pnum 1200)]]

/-- RMA raw response in the filtered (slim) shape. -/
def rmaShapeFiltered : PyVal :=
  pdict [("success", pbool true),
    ("annual", plist [pdict [("libelle", pstr "Pack 1"),
      ("primeTotalTTC", pnum 2000), ("points", plist [pstr "RC"])]]),
    ("semi_annual", plist [pdict [("libelle", pstr "Pack 1"),
      ("primeTotalTTC", pnum 1040), ("points", plist [pstr "RC"])]])]

/-- RMA raw response in the full upstream shape. -/
def rmaShapeFull : PyVal :=
  pdict [("annual", plist [pdict [("libelle", pstr "Pack 1"), ("id", pnum 7),
    ("primeAnnuelleHT", pnum 1500), ("taxes", pnum 200), ("taxeParafiscal", pnum 50),
    ("primeAnnuelleTTC", pnum 1750),
    ("garanties", plist [pdict [("libelle", pstr "RC"), ("included", pbool true)]]),
    ("eligible", pbool true)]])]

/-- MCMA raw response with the `packs` wrapper and session data. -/
def mcmaShapeWrapped : PyVal :=
  pdict [("packs", pdict [("essentielle", pdict [("annualBasePrice", pnum 1000),
      ("semiAnnualBasePrice", pnum 520), ("title", pstr "Essentielle"),
      ("key", pstr "essentielle"),
      ("privileges", plist [pdict [("title", pstr "RC")]])])]),
    ("subscription_id", pnum 42), ("token", pstr "tok")]

/-- MCMA raw response in the bare (packs-at-top-level) shape. -/
def mcmaShapeBare : PyVal :=
  pdict [("essentielle", pdict [("annualBasePrice", pnum 1000),
    ("semiAnnualBasePrice", pnum 520)])]

/-- AXA raw response in the new (dict) shape. -/
def axaShapeNew : PyVal :=
  pdict [("annual", plist [pdict [("primeNetAnnuel", pnum 900),
      ("taxesAnnuel", pnum 126), ("cnpacAnnuel", pnum 20),
      ("accessoireAnnuel", pnum 30), ("primeTotaleAnnuel", pnum 1076)]]),
    ("semi_annual", plist [pdict [("primeNetComptant", pnum 500)]]),
    ("base_payload", pdict [("x", pnum 1)]),
    ("id_quotation", pnum 9), ("id_lead", pnum 8)]

/-- AXA raw response in the old (list-only) shape. -/
def axaShapeOld : PyVal :=
  plist [pdict [("primeNetAnnuel", pnum 900)]]

/-- A recognized Sanlam shape whose plan entry is ill-typed (the
truthy non-dict `1` in the plan array). -/
def sanlamIllTyped : PyVal := pdict [("annual", plist [pnum 1])]

/-- An AXA raw quote whose upstream-supplied totals do not satisfy the
pricing invariant. -/
def axaInconsistent : PyVal :=
  pdict [("annual", plist [pdict [("primeNetAnnuel", pnum 100),
    ("primeTotaleAnnuel", pnum 500)]])]

/-- A Sanlam dict-shape response carrying pricing only for the annual
cadence (no `semi_annual` key at all). -/
def sanlamAnnualOnly : PyVal :=
  pdict [("annual", plist [pdict [("primeHT", pnum 100), ("priceTTC", pnum 120)]])]

/-- A clock reading on January 1st. -/
def clockJan1 : Clock := ⟨⟨2026, 1, 1⟩, ⟨2026, 1, 1⟩⟩

/-- A clock reading on January 2nd. -/
def clockJan2 : Clock := ⟨⟨2026, 1, 2⟩, ⟨2026, 1, 2⟩⟩

/-- A sample dummy identity. -/
def identSample : Identity := ⟨"0612345678", "00012-F-34"⟩

/-- Another sample dummy identity. -/
def identSample2 : Identity := ⟨"0687654321", "99999-A-11"⟩

/-- Environment in which no job's scripted workflow raises. -/
def noFailures : ℕ → Bool := fun _ => false

/-- Environment in which exactly job `0`'s scripted workflow raises. -/
def failsJobZero : ℕ → Bool := fun j => j == 0

/-- State reached when two submitters race through the unsynchronized
double-checked `start()`, both spawn a worker, worker 0 dequeues job 0,
worker 1 dequeues job 1 and acquires the browser lock first. -/
def c3CexState : QState :=
  ⟨true, [.waiting 0, .waiting 1], [.wgot 0, .wexec 1], [], some 1, [],
    [.enq 0, .enq 1, .execStart 1]⟩

/-- State reached when job 0's scripted workflow raises: the single
worker is blocked re-acquiring the non-reentrant browser lock inside
`_close_browser`, both callers have taken the timeout outcome, job 0's
done event was never set and job 1 sits in the queue forever. -/
def c4StuckState : QState :=
  ⟨true, [.gotTimeout 0, .gotTimeout 1], [.wclosing 0], [1], some 0, [],
    [.enq 0, .enq 1, .execStart 0]⟩

/-- Default plan value (used only to take the head of a computed plan
list in witness statements). -/
instance : Inhabited Plan :=
  ⟨⟨pnone, pnone, "", "", "", none, ⟨none, none, none, none, pnone⟩,
    ⟨none, none, none, none, pnone⟩, pnone, none, pnone, 0⟩⟩

/-- The plans computed from the old-shape Sanlam response above. -/
def sanlamOldPlans : List Plan :=
  (parseSanlamResponse sanlamShapeOld).toOption.getD []

/-! ## Helper lemmas -/

/-- Inversion of a successful bind in the exception monad. -/
theorem pyBind_ok {α β : Type} {m : Py α} {f : α → Py β} {b : β} :
    (m >>= f) = Except.ok b ↔ ∃ a, m = Except.ok a ∧ f a = Except.ok b := by
  cases m <;> simp [Bind.bind, Except.bind]

/-- Inversion of a successful Python subtraction. -/
theorem pySub_ok {a b v : PyVal} :
    pySub a b = Except.ok v ↔
      ∃ x y, toNum a = some x ∧ toNum b = some y ∧ v = pnum (x - y) := by
  cases ha : toNum a <;> cases hb : toNum b <;> simp [pySub, ha, hb] <;> exact eq_comm

/-- Inversion of a successful multiplication by a constant. -/
theorem pyMulC_ok {a : PyVal} {c : ℚ} {v : PyVal} :
    pyMulC a c = Except.ok v ↔ ∃ x, toNum a = some x ∧ v = pnum (x * c) := by
  cases ha : toNum a <;> simp [pyMulC, ha] <;> exact eq_comm

/-- Inversion of a successful `round(·, 2)`. -/
theorem pyRound2_ok {a v : PyVal} :
    pyRound2 a = Except.ok v ↔ ∃ x, toNum a = some x ∧ v = pnum (round2 x) := by
  cases ha : toNum a <;> simp [pyRound2, ha] <;> exact eq_comm

/-- A successful Python addition of two numeric values is numeric
addition. -/
theorem pyAdd_ok_of_num {a b : PyVal} {x y : ℚ} {v : PyVal}
    (ha : toNum a = some x) (hb : toNum b = some y) (h : pyAdd a b = Except.ok v) :
    v = pnum (x + y) := by
  cases a <;> cases b <;> simp_all [pyAdd, toNum]

/-- Round-half-to-even lands within half a unit. -/
theorem roundHalfEven_close (q : ℚ) : |(roundHalfEven q : ℚ) - q| ≤ 1/2 := by
  have h0 : (0:ℚ) ≤ q - ⌊q⌋ := sub_nonneg.mpr (Int.floor_le q)
  have h1 : q - ⌊q⌋ < 1 := by
    have := Int.lt_floor_add_one q
    linarith
  simp only [roundHalfEven]
  split_ifs with hr1 hr2 hev <;> rw [abs_le] <;> constructor <;> push_cast <;> linarith

/-- `round(·, 2)` lands within half a cent. -/
theorem round2_close (q : ℚ) : |round2 q - q| ≤ 1/200 := by
  have h := roundHalfEven_close (q * 100)
  have hrw : round2 q - q = ((roundHalfEven (q * 100) : ℚ) - q * 100) / 100 := by
    rw [round2]; ring
  rw [hrw, abs_div]
  rw [show |(100:ℚ)| = 100 by norm_num]
  calc |(roundHalfEven (q * 100) : ℚ) - q * 100| / 100 ≤ (1/2) / 100 := by gcongr
    _ = 1/200 := by norm_num

/-- A rounded value scaled by 100 is the underlying integer. -/
theorem round2_mul100_int (q : ℚ) :
    round2 q * 100 = (roundHalfEven (q * 100) : ℚ) := by
  rw [round2]; field_simp

/-- Rounding each part separately agrees with rounding the sum to
within one cent: the three half-cent errors combine to a multiple of a
cent of magnitude at most one. -/
theorem round2_triangle (u w : ℚ) :
    |round2 (u + w) - (round2 u + round2 w)| ≤ 1/100 := by
  set d : ℚ := round2 (u + w) - (round2 u + round2 w) with hd
  have h1 := round2_close u
  have h2 := round2_close w
  have h3 := round2_close (u + w)
  have hsmall : |d| ≤ 3/200 := by
    have hrw : d = (round2 (u + w) - (u + w)) - (round2 u - u) - (round2 w - w) := by
      rw [hd]; ring
    rw [hrw]
    calc |(round2 (u + w) - (u + w)) - (round2 u - u) - (round2 w - w)|
        ≤ |(round2 (u + w) - (u + w)) - (round2 u - u)| + |round2 w - w| :=
          abs_sub _ _
      _ ≤ |round2 (u + w) - (u + w)| + |round2 u - u| + |round2 w - w| := by
          have := abs_sub (round2 (u + w) - (u + w)) (round2 u - u)
          linarith
      _ ≤ 3/200 := by linarith
  have hz : d * 100 =
      ((roundHalfEven ((u + w) * 100) - roundHalfEven (u * 100) -
        roundHalfEven (w * 100) : ℤ) : ℚ) := by
    have : d * 100 = round2 (u + w) * 100 - (round2 u * 100 + round2 w * 100) := by
      rw [hd]; ring
    rw [this, round2_mul100_int, round2_mul100_int, round2_mul100_int]
    push_cast
    ring
  set z : ℤ := roundHalfEven ((u + w) * 100) - roundHalfEven (u * 100) -
    roundHalfEven (w * 100) with hzdef
  have habs : |(z : ℚ)| ≤ 3/2 := by
    have hmul : |d * 100| = |d| * 100 := by
      rw [abs_mul]; norm_num
    calc |(z : ℚ)| = |d * 100| := by rw [hz]
      _ = |d| * 100 := hmul
      _ ≤ (3/200) * 100 := by linarith
      _ = 3/2 := by norm_num
  have hz1 : |z| ≤ 1 := by
    by_contra hcon
    push_neg at hcon
    have h2le : (2 : ℤ) ≤ |z| := hcon
    have : (2 : ℚ) ≤ |(z : ℚ)| := by
      rw [← Int.cast_abs]
      exact_mod_cast h2le
    linarith
  have hd100 : d = (z : ℚ) / 100 := by
    rw [eq_div_iff (by norm_num : (100:ℚ) ≠ 0)]
    exact hz
  rw [hd100, abs_div, show |(100:ℚ)| = 100 by norm_num]
  have : |(z : ℚ)| ≤ 1 := by
    rw [← Int.cast_abs]
    exact_mod_cast hz1
  calc |(z : ℚ)| / 100 ≤ 1 / 100 := by gcongr
    _ = 1/100 := rfl

/-! ## Pricing-invariant lemmas (claim C7) -/

/-- Numeric view of a number value. -/
theorem toNum_pnum (q : ℚ) : toNum (pnum q) = some q := rfl

/-- Characterization of a successfully built Sanlam pricing block. -/
theorem sanlamBlock_ok {f : PyVal} {b : PriceBlock} (h : sanlamBlock f = Except.ok b) :
    ∃ ht ttc x y, toNum ht = some y ∧ toNum ttc = some x ∧
      b = ⟨some ht, some (pnum (x - y)), none, none, ttc⟩ := by
  rw [sanlamBlock, pyBind_ok] at h
  obtain ⟨ht, hht, h⟩ := h
  rw [pyBind_ok] at h
  obtain ⟨ttc, httc, h⟩ := h
  rw [pyBind_ok] at h
  obtain ⟨tax, htax, h⟩ := h
  rw [pySub_ok] at htax
  obtain ⟨x, y, hx, hy, rfl⟩ := htax
  simp only [pure, Except.pure, Except.ok.injEq] at h
  exact ⟨ht, ttc, x, y, hy, hx, h.symm⟩

/-- A Sanlam pricing block satisfies the invariant exactly. -/
theorem sanlamBlock_inv {f : PyVal} {b : PriceBlock} (h : sanlamBlock f = Except.ok b) :
    BlockInv b := by
  obtain ⟨ht, ttc, x, y, hy, hx, rfl⟩ := sanlamBlock_ok h
  refine ⟨x - (y + (x - y) + 0 + 0), ?_, ?_⟩
  · simp only [blockGap, optNum, hx, hy, toNum_pnum]
  · have hz : x - (y + (x - y) + 0 + 0) = 0 := by ring
    rw [hz]
    norm_num

/-- The old-shape Sanlam semi-annual block satisfies the invariant
within one cent (three independent roundings of the `0.52` scaling). -/
theorem sanlamSemiOldBlock_inv {f : PyVal} {b : PriceBlock}
    (h : sanlamSemiOldBlock f = Except.ok b) : BlockInv b := by
  rw [sanlamSemiOldBlock, pyBind_ok] at h
  obtain ⟨ht, hht, h⟩ := h
  rw [pyBind_ok] at h
  obtain ⟨m1, hm1, h⟩ := h
  rw [pyBind_ok] at h
  obtain ⟨net, hnet, h⟩ := h
  rw [pyBind_ok] at h
  obtain ⟨ttc, httc, h⟩ := h
  rw [pyBind_ok] at h
  obtain ⟨df, hdf, h⟩ := h
  rw [pyBind_ok] at h
  obtain ⟨m2, hm2, h⟩ := h
  rw [pyBind_ok] at h
  obtain ⟨tax, htax, h⟩ := h
  rw [pyBind_ok] at h
  obtain ⟨m3, hm3, h⟩ := h
  rw [pyBind_ok] at h
  obtain ⟨tot, htot, h⟩ := h
  rw [pyMulC_ok] at hm1
  obtain ⟨y, hy, rfl⟩ := hm1
  rw [pyRound2_ok] at hnet
  obtain ⟨y', hy', rfl⟩ := hnet
  simp only [toNum, Option.some.injEq] at hy'
  subst hy'
  rw [pySub_ok] at hdf
  obtain ⟨x, y2, hx, hy2, rfl⟩ := hdf
  rw [hy] at hy2
  obtain rfl := Option.some.inj hy2
  rw [pyMulC_ok] at hm2
  obtain ⟨x2, hx2, rfl⟩ := hm2
  simp only [toNum, Option.some.injEq] at hx2
  subst hx2
  rw [pyRound2_ok] at htax
  obtain ⟨x3, hx3, rfl⟩ := htax
  simp only [toNum, Option.some.injEq] at hx3
  subst hx3
  rw [pyMulC_ok] at hm3
  obtain ⟨x4, hx4, rfl⟩ := hm3
  rw [hx] at hx4
  obtain rfl := Option.some.inj hx4
  rw [pyRound2_ok] at htot
  obtain ⟨x5, hx5, rfl⟩ := htot
  simp only [toNum, Option.some.injEq] at hx5
  subst hx5
  simp only [pure, Except.pure, Except.ok.injEq] at h
  subst h
  refine ⟨round2 (x * (13/25)) -
    (round2 (y * (13/25)) + round2 ((x - y) * (13/25)) + 0 + 0), ?_, ?_⟩
  · simp only [blockGap, optNum, toNum_pnum]
  · have harg : x * (13/25) = y * (13/25) + (x - y) * (13/25) := by ring
    have key := round2_triangle (y * (13/25)) ((x - y) * (13/25))
    rw [harg]
    have hsimp : round2 (y * (13/25) + (x - y) * (13/25)) -
        (round2 (y * (13/25)) + round2 ((x - y) * (13/25)) + 0 + 0) =
        round2 (y * (13/25) + (x - y) * (13/25)) -
        (round2 (y * (13/25)) + round2 ((x - y) * (13/25))) := by ring
    rw [hsimp]
    exact key

/-- Every plan emitted by the indexed build loop comes from a
successful application of the per-entry builder. -/
theorem buildPlans_mem {f : ℕ → PyVal → Py Plan} {P : Plan → Prop}
    (hf : ∀ i x p, f i x = Except.ok p → P p) :
    ∀ i xs l, buildPlans f i xs = Except.ok l → ∀ p ∈ l, P p := by
  intro i xs
  induction xs generalizing i with
  | nil =>
    intro l h p hp
    simp only [buildPlans, pure, Except.pure, Except.ok.injEq] at h
    subst h
    simp at hp
  | cons x xs ih =>
    intro l h p hp
    simp only [buildPlans] at h
    by_cases ht : truthy x
    · rw [if_pos ht, pyBind_ok] at h
      obtain ⟨q, hq, h⟩ := h
      rw [pyBind_ok] at h
      obtain ⟨rest, hrest, h⟩ := h
      simp only [pure, Except.pure, Except.ok.injEq] at h
      subst h
      cases hp with
      | head => exact hf _ _ _ hq
      | tail _ hmem => exact ih _ _ hrest _ hmem
    · rw [if_neg ht] at h
      exact ih _ _ h _ hp

/-- Every plan emitted by the MCMA pack loop comes from a successful
per-pack build. -/
theorem mcmaLoop_mem {pd : PyVal} {P : Plan → Prop}
    (hf : ∀ i k p, mcmaPlanOfPack pd i k = Except.ok (some p) → P p) :
    ∀ i ks l, mcmaLoop pd i ks = Except.ok l → ∀ p ∈ l, P p := by
  intro i ks
  induction ks generalizing i with
  | nil =>
    intro l h p hp
    simp only [mcmaLoop, pure, Except.pure, Except.ok.injEq] at h
    subst h
    simp at hp
  | cons k ks ih =>
    intro l h p hp
    simp only [mcmaLoop] at h
    rw [pyBind_ok] at h
    obtain ⟨p?, hp?, h⟩ := h
    rw [pyBind_ok] at h
    obtain ⟨rest, hrest, h⟩ := h
    simp only [pure, Except.pure, Except.ok.injEq] at h
    subst h
    cases p? with
    | none =>
      simp only at hp
      exact ih _ _ hrest _ hp
    | some q =>
      simp only at hp
      cases hp with
      | head => exact hf _ _ _ hp?
      | tail _ hmem => exact ih _ _ hrest _ hmem

/-- Both cadences of a new-shape Sanlam plan satisfy the invariant. -/
theorem sanlamPlanNew_inv {semis : PyVal} {i : ℕ} {x : PyVal} {p : Plan}
    (h : sanlamPlanNew semis i x = Except.ok p) :
    BlockInv p.annual ∧ BlockInv p.semi_annual := by
  rw [sanlamPlanNew, pyBind_ok] at h
  obtain ⟨semiF, hsF, h⟩ := h
  rw [pyBind_ok] at h
  obtain ⟨nm, hnm, h⟩ := h
  rw [pyBind_ok] at h
  obtain ⟨annual, hann, h⟩ := h
  rw [pyBind_ok] at h
  obtain ⟨semi, hsemi, h⟩ := h
  rw [pyBind_ok] at h
  obtain ⟨gs, hgs, h⟩ := h
  simp only [pure, Except.pure, Except.ok.injEq] at h
  subst h
  exact ⟨sanlamBlock_inv hann, sanlamBlock_inv hsemi⟩

/-- Both cadences of an old-shape Sanlam plan satisfy the invariant. -/
theorem sanlamPlanOld_inv {i : ℕ} {x : PyVal} {p : Plan}
    (h : sanlamPlanOld i x = Except.ok p) :
    BlockInv p.annual ∧ BlockInv p.semi_annual := by
  rw [sanlamPlanOld, pyBind_ok] at h
  obtain ⟨nm, hnm, h⟩ := h
  rw [pyBind_ok] at h
  obtain ⟨annual, hann, h⟩ := h
  rw [pyBind_ok] at h
  obtain ⟨semi, hsemi, h⟩ := h
  rw [pyBind_ok] at h
  obtain ⟨gs, hgs, h⟩ := h
  simp only [pure, Except.pure, Except.ok.injEq] at h
  subst h
  exact ⟨sanlamBlock_inv hann, sanlamSemiOldBlock_inv hsemi⟩

/-- Both cadences of an MCMA plan satisfy the invariant: taxes are
computed from the base price and the total is the rounded sum. -/
theorem mcmaPlanOfPack_inv {pd : PyVal} {i : ℕ} {k : String} {p : Plan}
    (h : mcmaPlanOfPack pd i k = Except.ok (some p)) :
    BlockInv p.annual ∧ BlockInv p.semi_annual := by
  rw [mcmaPlanOfPack, pyBind_ok] at h
  obtain ⟨mem, hmem, h⟩ := h
  cases mem with
  | false =>
    simp only [Bool.not_false, if_true, pure, Except.pure, Except.ok.injEq] at h
    cases h
  | true =>
    simp only [Bool.not_true, Bool.false_eq_true, if_false] at h
    rw [pyBind_ok] at h
    obtain ⟨pack, hpack, h⟩ := h
    rw [pyBind_ok] at h
    obtain ⟨dis, hdis, h⟩ := h
    by_cases hd : truthy dis = true
    · rw [if_pos hd] at h
      simp only [pure, Except.pure, Except.ok.injEq] at h
      cases h
    · rw [if_neg hd] at h
      rw [pyBind_ok] at h
      obtain ⟨annualPrice, hap, h⟩ := h
      rw [pyBind_ok] at h
      obtain ⟨semiPrice, hsp, h⟩ := h
      rw [pyBind_ok] at h
      obtain ⟨m1, hm1, h⟩ := h
      rw [pyBind_ok] at h
      obtain ⟨annualTaxes, hat, h⟩ := h
      rw [pyBind_ok] at h
      obtain ⟨m2, hm2, h⟩ := h
      rw [pyBind_ok] at h
      obtain ⟨semiTaxes, hst, h⟩ := h
      rw [pyBind_ok] at h
      obtain ⟨title, htitle, h⟩ := h
      rw [pyBind_ok] at h
      obtain ⟨key, hkey, h⟩ := h
      rw [pyBind_ok] at h
      obtain ⟨mA, hmA, h⟩ := h
      rw [pyBind_ok] at h
      obtain ⟨totAnnual, htA, h⟩ := h
      rw [pyBind_ok] at h
      obtain ⟨mS, hmS, h⟩ := h
      rw [pyBind_ok] at h
      obtain ⟨totSemi, htS, h⟩ := h
      rw [pyBind_ok] at h
      obtain ⟨privs, hprivs, h⟩ := h
      rw [pyBind_ok] at h
      obtain ⟨items, hitems, h⟩ := h
      rw [pyBind_ok] at h
      obtain ⟨gs, hgs, h⟩ := h
      rw [pyBind_ok] at h
      obtain ⟨dis2, hdis2, h⟩ := h
      simp only [pure, Except.pure, Except.ok.injEq, Option.some.injEq] at h
      subst h
      rw [pyMulC_ok] at hm1
      obtain ⟨a, ha, rfl⟩ := hm1
      rw [pyRound2_ok] at hat
      obtain ⟨a1, ha1, rfl⟩ := hat
      simp only [toNum_pnum, Option.some.injEq] at ha1
      subst ha1
      rw [pyMulC_ok] at hm2
      obtain ⟨sP, hsP, rfl⟩ := hm2
      rw [pyRound2_ok] at hst
      obtain ⟨s1, hs1, rfl⟩ := hst
      simp only [toNum_pnum, Option.some.injEq] at hs1
      subst hs1
      have hma := pyAdd_ok_of_num ha (toNum_pnum _) hmA
      subst hma
      rw [pyRound2_ok] at htA
      obtain ⟨a2, ha2, rfl⟩ := htA
      simp only [toNum_pnum, Option.some.injEq] at ha2
      subst ha2
      have hms := pyAdd_ok_of_num hsP (toNum_pnum _) hmS
      subst hms
      rw [pyRound2_ok] at htS
      obtain ⟨s2, hs2, rfl⟩ := htS
      simp only [toNum_pnum, Option.some.injEq] at hs2
      subst hs2
      constructor
      · refine ⟨round2 (a + round2 (a * (33/200))) -
          (a + round2 (a * (33/200)) + 0 + 0), ?_, ?_⟩
        · simp only [blockGap, optNum, ha, toNum_pnum]
        · have hrw : round2 (a + round2 (a * (33/200))) -
              (a + round2 (a * (33/200)) + 0 + 0) =
              round2 (a + round2 (a * (33/200))) - (a + round2 (a * (33/200))) := by
            ring
          rw [hrw]
          exact le_trans (round2_close _) (by norm_num)
      · refine ⟨round2 (sP + round2 (sP * (33/200))) -
          (sP + round2 (sP * (33/200)) + 0 + 0), ?_, ?_⟩
        · simp only [blockGap, optNum, hsP, toNum_pnum]
        · have hrw : round2 (sP + round2 (sP * (33/200))) -
              (sP + round2 (sP * (33/200)) + 0 + 0) =
              round2 (sP + round2 (sP * (33/200))) - (sP + round2 (sP * (33/200))) := by
            ring
          rw [hrw]
          exact le_trans (round2_close _) (by norm_num)

/-- C7 (amended): for every normalized plan produced by the MCMA or
Sanlam normalizer and each billing cadence independently, the plan's
total premium equals net plus taxes plus ancillary fees within 0.01.
(The AXA and RMA normalizers copy upstream-supplied pricing components
verbatim, so this invariant is not enforced there; see the
counterexample.) -/
theorem claim_C7 :
    (∀ data plans sess, parseMcmaResponse data = Except.ok (plans, sess) →
      ∀ p ∈ plans, BlockInv p.annual ∧ BlockInv p.semi_annual)
    ∧ (∀ data plans, parseSanlamResponse data = Except.ok plans →
      ∀ p ∈ plans, BlockInv p.annual ∧ BlockInv p.semi_annual) := by
  constructor
  · intro data plans sess h
    rw [parseMcmaResponse] at h
    split at h
    · simp only [pure, Except.pure, Except.ok.injEq, Prod.mk.injEq] at h
      obtain ⟨rfl, -⟩ := h
      intro p hp
      simp at hp
    · rw [pyBind_ok] at h
      obtain ⟨ps, hps, h⟩ := h
      simp only [pure, Except.pure, Except.ok.injEq, Prod.mk.injEq] at h
      obtain ⟨rfl, -⟩ := h
      exact mcmaLoop_mem (fun i k p hp => mcmaPlanOfPack_inv hp) _ _ _ hps
  · intro data plans h
    rw [parseSanlamResponse] at h
    split at h
    · split at h
      · simp only [pure, Except.pure, Except.ok.injEq] at h
        subst h
        intro p hp
        simp at hp
      · exact buildPlans_mem (fun i x p hp => sanlamPlanNew_inv hp) _ _ _ h
    · split at h
      · simp only [pure, Except.pure, Except.ok.injEq] at h
        subst h
        intro p hp
        simp at hp
      · exact buildPlans_mem (fun i x p hp => sanlamPlanOld_inv hp) _ _ _ h

/-- C7 counterexample: the AXA normalizer copies the upstream totals,
so a raw quote with `primeNetAnnuel = 100` and
`primeTotaleAnnuel = 500` (all other components defaulting to 0)
yields a plan whose annual block violates
`total == net + taxes + ancillary fees` within 0.01. -/
theorem claim_C7_counterexample :
    (parseAxaResponse axaInconsistent).map (fun pr => pr.1.map (fun p => p.annual)) =
      Except.ok [⟨some (pnum 100), some (pnum 0), some (pnum 0), some (pnum 0), pnum 500⟩]
    ∧ ¬ BlockInv ⟨some (pnum 100), some (pnum 0), some (pnum 0), some (pnum 0), pnum 500⟩ := by
  constructor
  · rfl
  · rintro ⟨g, hg, habs⟩
    simp only [blockGap, optNum, toNum_pnum, Option.some.injEq] at hg
    subst hg
    norm_num at habs

/-- C7 witness: the plan computed from a concrete old-shape Sanlam
response satisfies the invariant on both cadences. -/
theorem claim_C7_witness :
    BlockInv (sanlamOldPlans.head!).annual ∧ BlockInv (sanlamOldPlans.head!).semi_annual :=
  claim_C7.2 sanlamShapeOld sanlamOldPlans rfl _
    (List.head!_mem_self (by
      have hlen : sanlamOldPlans.length = 1 := rfl
      intro he
      rw [he] at hlen
      simp at hlen))

/-! ## Claim C10: error field of a fetched result -/

/-- C10 (confirmed): for every result returned by the per-provider
pipeline, the error field is `None` iff the plans list is non-empty;
a completed scraper call normalizing to zero plans reports exactly
`No plans returned`, and a scraper exception yields an empty plans
list with the exception message as the error. -/
theorem claim_C10 (behave : Behavior) (code : String) (params : PyVal) :
    ((fetchFromProvider behave code params).error = none ↔
      (fetchFromProvider behave code params).plans ≠ [])
    ∧ (∀ e, code ∈ scraperCodes → behave code params = Except.error e →
        (fetchFromProvider behave code params).plans = [] ∧
        (fetchFromProvider behave code params).error = some e)
    ∧ (∀ raw aS mS, code ∈ scraperCodes → behave code params = Except.ok raw →
        parseForProvider code raw = Except.ok ([], aS, mS) →
        (fetchFromProvider behave code params).plans = [] ∧
        (fetchFromProvider behave code params).error = some "No plans returned") := by
  refine ⟨?_, ?_, ?_⟩
  · by_cases hc : code ∈ scraperCodes
    · simp only [fetchFromProvider, if_pos hc]
      cases hb : behave code params with
      | error e => simp [hb]
      | ok raw =>
        cases hp : parseForProvider code raw with
        | error e => simp [hb, hp]
        | ok t =>
          obtain ⟨plans, aS, mS⟩ := t
          by_cases hpl : plans.isEmpty
          · have hnil : plans = [] := by simpa [List.isEmpty_iff] using hpl
            subst hnil
            simp [hb, hp]
          · have hne : plans ≠ [] := by simpa [List.isEmpty_iff] using hpl
            simp [hb, hp, hpl, hne]
    · simp [fetchFromProvider, hc]
  · intro e hc hb
    simp [fetchFromProvider, hc, hb]
  · intro raw aS mS hc hb hp
    simp [fetchFromProvider, hc, hb, hp]

/-- C10 witness: a concrete failing scraper call carries the message
as its error, and a concrete call normalizing to zero plans carries
exactly the `No plans returned` error. -/
theorem claim_C10_witness :
    ((fetchFromProvider (errBehave "boom") "axa" pnone).plans = [] ∧
      (fetchFromProvider (errBehave "boom") "axa" pnone).error = some "boom")
    ∧ ((fetchFromProvider (okBehave pnone) "sanlam" pnone).plans = [] ∧
      (fetchFromProvider (okBehave pnone) "sanlam" pnone).error =
        some "No plans returned") :=
  ⟨(claim_C10 (errBehave "boom") "axa" pnone).2.1 "boom" (by decide) rfl,
    (claim_C10 (okBehave pnone) "sanlam" pnone).2.2 pnone none none
      (by decide) rfl rfl⟩

/-! ## Claim C6: normalizer totality on malformed input -/

/-- C6 (amended): each normalizer accepts the two known raw shapes per
provider, and returns normally with an empty plan list on every input
whose top-level shape is unrecognized (any value that is neither a
dict nor a list — `None`, booleans, numbers, strings); however,
ill-typed values nested inside a recognized shape raise (the exception
is caught at the provider-pipeline boundary instead, see the
counterexample). -/
theorem claim_C6 :
    (∀ v, isDict v = false → isList v = false →
      parseSanlamResponse v = Except.ok [] ∧ parseRmaResponse v = Except.ok [] ∧
      parseMcmaResponse v = Except.ok ([], none) ∧
      parseAxaResponse v = Except.ok ([], none))
    ∧ (parseSanlamResponse sanlamShapeNew).map List.length = Except.ok 1
    ∧ (parseSanlamResponse sanlamShapeOld).map List.length = Except.ok 1
    ∧ (parseRmaResponse rmaShapeFiltered).map List.length = Except.ok 1
    ∧ (parseRmaResponse rmaShapeFull).map List.length = Except.ok 1
    ∧ (parseMcmaResponse mcmaShapeWrapped).map (fun pr => pr.1.length) = Except.ok 1
    ∧ (parseMcmaResponse mcmaShapeBare).map (fun pr => pr.1.length) = Except.ok 1
    ∧ (parseAxaResponse axaShapeNew).map (fun pr => pr.1.length) = Except.ok 1
    ∧ (parseAxaResponse axaShapeOld).map (fun pr => pr.1.length) = Except.ok 1 := by
  refine ⟨?_, rfl, rfl, rfl, rfl, rfl, rfl, rfl, rfl⟩
  intro v hd hl
  cases v <;> simp_all [parseSanlamResponse, parseRmaResponse, parseMcmaResponse,
    parseAxaResponse, isDict, isList, truthy, dictHasKey, pure, Except.pure]

/-- C6 counterexample: a recognized Sanlam dict shape whose plan array
holds the truthy non-dict `1` makes `parse_sanlam_response` raise
(`AttributeError` on `.get`) instead of returning an empty plan
list. -/
theorem claim_C6_counterexample :
    (parseSanlamResponse sanlamIllTyped).toOption = none := rfl

/-- C6 witness at the concrete non-dict non-list input `3`. -/
theorem claim_C6_witness :
    parseSanlamResponse (pnum 3) = Except.ok [] ∧
    parseRmaResponse (pnum 3) = Except.ok [] ∧
    parseMcmaResponse (pnum 3) = Except.ok ([], none) ∧
    parseAxaResponse (pnum 3) = Except.ok ([], none) :=
  claim_C6.1 (pnum 3) rfl rfl

/-! ## Claim C5: derived semi-annual pricing -/

/-- The `x or 0` idiom is the identity on numbers. -/
theorem pyOr_pnum_zero (q : ℚ) : pyOr (pnum q) (pnum 0) = pnum q := by
  by_cases h : q = 0 <;> simp [pyOr, truthy, h]

/-- C5 (amended): when the raw response supplies a semi-annual value
it is used directly; when it is absent, the RMA normalizer (filtered
and full shapes alike) and the Sanlam list-shape normalizer derive
each semi-annual component as the annual one times 0.52 rounded to 2
decimals, while the Sanlam dict-shape normalizer instead reuses the
plan's annual values unchanged. -/
theorem claim_C5 :
    (∀ ht ttc : ℚ,
      (parseSanlamResponse (plist [pdict [("primeHT", pnum ht), ("priceTTC", pnum ttc)]])).map
        (fun ps => ps.map (fun p => p.semi_annual)) =
      Except.ok [⟨some (pnum (round2 (ht * (13/25)))),
        some (pnum (round2 ((ttc - ht) * (13/25)))), none, none,
        pnum (round2 (ttc * (13/25)))⟩])
    ∧ (∀ h t1 t2 tt : ℚ,
      (parseRmaResponse (plist [pdict [("primeAnnuelleHT", pnum h), ("taxes", pnum t1),
        ("taxeParafiscal", pnum t2), ("primeAnnuelleTTC", pnum tt)]])).map
        (fun ps => ps.map (fun p => p.semi_annual)) =
      Except.ok [⟨some (pnum (round2 (h * (13/25)))),
        some (pnum (round2 ((t1 + t2) * (13/25)))), none, none,
        pnum (round2 (tt * (13/25)))⟩])
    ∧ (∀ tot : ℚ,
      (parseRmaResponse (pdict [("annual",
        plist [pdict [("points", plist []), ("primeTotalTTC", pnum tot)]])])).map
        (fun ps => ps.map (fun p => p.semi_annual.prime_total)) =
      Except.ok [pnum (round2 (tot * (13/25)))])
    ∧ (∀ tot stot : ℚ,
      (parseRmaResponse (pdict [("annual",
        plist [pdict [("points", plist []), ("primeTotalTTC", pnum tot)]]),
        ("semi_annual", plist [pdict [("primeTotalTTC", pnum stot)]])])).map
        (fun ps => ps.map (fun p => p.semi_annual.prime_total)) =
      Except.ok [pnum stot])
    ∧ (∀ ht ttc : ℚ,
      (parseSanlamResponse (pdict [("annual",
        plist [pdict [("primeHT", pnum ht), ("priceTTC", pnum ttc)]])])).map
        (fun ps => ps.map (fun p => (p.annual, p.semi_annual))) =
      Except.ok [(⟨some (pnum ht), some (pnum (ttc - ht)), none, none, pnum ttc⟩,
        ⟨some (pnum ht), some (pnum (ttc - ht)), none, none, pnum ttc⟩)]) := by
  refine ⟨?_, ?_, ?_, ?_, ?_⟩
  · intro ht ttc
    simp [parseSanlamResponse, buildPlans, sanlamPlanOld, sanlamBlock,
      sanlamSemiOldBlock, sanlamGuarantees, pyGet, dictFind, dictGetD, dictHasKey,
      pyIter, pySub, pyMulC, pyRound2, toNum, truthy, isList, isDict, asList,
      Except.map, pure, Except.pure, bind, Except.bind, List.mapM.loop]
  · intro h t1 t2 tt
    simp [parseRmaResponse, buildPlans, rmaPlanFull, rmaGuarantees, pyOr_pnum_zero,
      pyGet, dictFind, dictGetD, dictHasKey, pyIter, pyAdd, pySub, pyMulC, pyRound2,
      toNum, truthy, isList, isDict, asList, pyStr, Except.map, pure, Except.pure, bind, Except.bind, List.mapM.loop]
  · intro tot
    simp [parseRmaResponse, buildPlans, rmaPlanNew, rmaPlanFiltered, semiAt,
      pyContainsS, pyOr_pnum_zero, pyGet, dictFind, dictGetD, dictHasKey, pyIter,
      pyLen, pyIdx, pyMulC, pyRound2, toNum, truthy, isList, isDict, asList,
      Except.map, pure, Except.pure, bind, Except.bind, List.mapM.loop]
  · intro tot stot
    simp [parseRmaResponse, buildPlans, rmaPlanNew, rmaPlanFiltered, semiAt,
      pyContainsS, pyOr_pnum_zero, pyGet, dictFind, dictGetD, dictHasKey, pyIter,
      pyLen, pyIdx, pyMulC, pyRound2, toNum, truthy, isList, isDict, asList,
      Except.map, pure, Except.pure, bind, Except.bind, List.mapM.loop]
  · intro ht ttc
    simp [parseSanlamResponse, buildPlans, sanlamPlanNew, sanlamBlock, semiAt,
      sanlamGuarantees, pyGet, dictFind, dictGetD, dictHasKey, pyIter, pyLen,
      pySub, toNum, truthy, isList, isDict, asList, Except.map, pure, Except.pure, bind, Except.bind, List.mapM.loop]

/-- C5 counterexample: a Sanlam dict-shape response with annual-only
pricing (`primeHT = 100`, `priceTTC = 120`, no `semi_annual` key)
yields a semi-annual total of 120 — the annual value reused verbatim —
which differs from the claimed `round(120 × 0.52, 2)`. -/
theorem claim_C5_counterexample :
    (parseSanlamResponse sanlamAnnualOnly).map
      (fun ps => ps.map (fun p => p.semi_annual.prime_total)) = Except.ok [pnum 120]
    ∧ (120 : ℚ) ≠ round2 (120 * (13/25)) := by
  constructor
  · rfl
  · have h : (120 : ℚ) * (13/25) * 100 = 6240 := by norm_num
    rw [round2, roundHalfEven]
    norm_num [h]

/-! ## Aggregator lemmas (claims C1, C2, C8) -/

/-- The `errors` list has one entry per truthy-error result. -/
theorem errorStrings_length (rs : List ProviderResult) :
    (errorStrings rs).length = rs.countP errTruthy := by
  induction rs with
  | nil => rfl
  | cons r rs ih =>
    simp only [errorStrings] at ih ⊢
    by_cases h : errTruthy r = true
    · simp [List.filterMap_cons, h, List.countP_cons, ih]
    · simp [List.filterMap_cons, h, List.countP_cons, ih]

/-- A truthy error field is a `some`. -/
theorem errTruthy_isSome {r : ProviderResult} (h : errTruthy r = true) :
    r.error.isSome = true := by
  cases he : r.error <;> simp [errTruthy, he] at h ⊢

/-- A fetched result carries the provider code it was fetched for. -/
theorem fetch_code (behave : Behavior) (code : String) (params : PyVal) :
    (fetchFromProvider behave code params).provider_code = code := by
  by_cases hc : code ∈ scraperCodes
  · simp only [fetchFromProvider, if_pos hc]
    cases hb : behave code params with
    | error e => simp [hb]
    | ok raw =>
      cases hp : parseForProvider code raw with
      | error e => simp [hb, hp]
      | ok t =>
        obtain ⟨plans, aS, mS⟩ := t
        simp [hb, hp]
  · simp [fetchFromProvider, hc]

/-! ## Claim C1: meaning of the success flag -/

/-- C1 (amended): the returned `success` flag is true iff at least one
queried provider produced a result whose error field is falsy — unset
(`None`) or the empty string.  (An exception whose message is the
empty string leaves the error field set but falsy, so "unset" alone is
not equivalent; see the counterexample.) -/
theorem claim_C1 (behave : Behavior) (params selected : PyVal) (arrival : List String)
    (hperm : arrival.Perm (effectiveProviderCodes selected))
    (hne : effectiveProviderCodes selected ≠ []) :
    ((getAllQuotes behave params selected arrival).map (fun r => r.success) =
      Except.ok true) ↔
    ∃ code ∈ effectiveProviderCodes selected,
      errTruthy (fetchFromProvider behave code params) = false := by
  have hnei : (effectiveProviderCodes selected).isEmpty = false := by
    simpa [List.isEmpty_iff] using hne
  simp only [getAllQuotes, hnei, Bool.false_eq_true, if_false, Except.map,
    Except.ok.injEq, decide_eq_true_eq]
  rw [errorStrings_length]
  set q : String → Bool := fun c => errTruthy (fetchFromProvider behave c params)
    with hq
  have hcount : (arrival.map (fun c => fetchFromProvider behave c params)).countP
      errTruthy = (effectiveProviderCodes selected).countP q := by
    rw [List.countP_map]
    exact hperm.countP_eq _
  rw [hcount]
  constructor
  · intro hlt
    by_contra hcon
    push_neg at hcon
    have hall : ∀ c ∈ effectiveProviderCodes selected, q c = true := by
      intro c hc
      have := hcon c hc
      simpa [hq] using this
    have := List.countP_eq_length.mpr hall
    omega
  · rintro ⟨c, hc, hqc⟩
    have hle := List.countP_le_length (p := q) (l := effectiveProviderCodes selected)
    have hneq : (effectiveProviderCodes selected).countP q ≠
        (effectiveProviderCodes selected).length := by
      intro heq
      have := List.countP_eq_length.mp heq c hc
      rw [hq] at this
      simp only at this
      rw [hqc] at this
      cases this
    omega

/-- C1 counterexample: a scraper raising an exception with the empty
message gives an error field that is set (to `""`) yet falsy, so the
single queried provider produced no non-error result while `success`
still comes out true. -/
theorem claim_C1_counterexample :
    (getAllQuotes (errBehave "") pnone (plist [pstr "axa"]) ["axa"]).map
      (fun r => r.success) = Except.ok true
    ∧ effectiveProviderCodes (plist [pstr "axa"]) = ["axa"]
    ∧ (fetchFromProvider (errBehave "") "axa" pnone).error = some "" :=
  ⟨rfl, rfl, rfl⟩

/-- C1 witness at a concrete call with all four providers failing. -/
theorem claim_C1_witness :
    ((getAllQuotes (errBehave "x") pnone pnone scraperCodes).map (fun r => r.success) =
      Except.ok true) ↔
    ∃ code ∈ effectiveProviderCodes pnone,
      errTruthy (fetchFromProvider (errBehave "x") code pnone) = false :=
  claim_C1 (errBehave "x") pnone pnone scraperCodes (List.Perm.refl _) (by decide)

/-! ## Claim C2: structured results and all-fail behavior -/

/-- C2 (amended): whenever the effective provider set is non-empty, a
comparison call returns a structured aggregate result and never
raises — exceptions inside a provider's pipeline are caught at that
provider's boundary (the fetch step is a total function of the scraper
outcome) — and when every queried provider fails the result carries
`success = false`, one collected error string per provider, and a
populated error field on every provider entry.  (A call whose selected
subset matches no registered provider raises `ValueError` from the
thread-pool construction instead of returning a structured result; see
the counterexample.) -/
theorem claim_C2 (behave : Behavior) (params selected : PyVal) (arrival : List String)
    (hperm : arrival.Perm (effectiveProviderCodes selected))
    (hne : effectiveProviderCodes selected ≠ []) :
    (getAllQuotes behave params selected arrival).toOption.isSome = true
    ∧ ((∀ c ∈ effectiveProviderCodes selected,
          errTruthy (fetchFromProvider behave c params) = true) →
        (getAllQuotes behave params selected arrival).map
          (fun r => (r.success, (r.errors.getD []).length)) =
          Except.ok (false, (effectiveProviderCodes selected).length)
        ∧ (getAllQuotes behave params selected arrival).map
          (fun r => r.providers.all (fun e => e.error.isSome)) = Except.ok true) := by
  have hnei : (effectiveProviderCodes selected).isEmpty = false := by
    simpa [List.isEmpty_iff] using hne
  constructor
  · simp [getAllQuotes, hnei, Except.toOption]
  · intro hall
    have hallArr : ∀ c ∈ arrival, errTruthy (fetchFromProvider behave c params) = true :=
      fun c hc => hall c (hperm.subset hc)
    have hcount : (arrival.map (fun c => fetchFromProvider behave c params)).countP
        errTruthy = (effectiveProviderCodes selected).length := by
      rw [List.countP_map]
      rw [hperm.countP_eq]
      exact List.countP_eq_length.mpr (fun c hc => hall c hc)
    constructor
    · have hlen : (errorStrings
          (arrival.map (fun c => fetchFromProvider behave c params))).length =
          (effectiveProviderCodes selected).length := by
        rw [errorStrings_length, hcount]
      have hpos : 0 < (effectiveProviderCodes selected).length :=
        List.length_pos.mpr hne
      have hnonempty : (errorStrings
          (arrival.map (fun c => fetchFromProvider behave c params))).isEmpty = false := by
        have hne2 : errorStrings
            (arrival.map (fun c => fetchFromProvider behave c params)) ≠ [] := by
          intro h0
          rw [h0] at hlen
          simp at hlen
          omega
        simpa [List.isEmpty_iff] using hne2
      simp only [getAllQuotes, hnei, Bool.false_eq_true, if_false, Except.map,
        Except.ok.injEq, hnonempty, Option.getD_some, Prod.mk.injEq]
      refine ⟨by simp [hlen], hlen⟩
    · simp only [getAllQuotes, hnei, Bool.false_eq_true, if_false, Except.map,
        Except.ok.injEq, List.all_eq_true, List.mem_map]
      rintro e ⟨r, ⟨c, hc, rfl⟩, rfl⟩
      have ht := hallArr c hc
      simp only [mkEntry, ht, if_true]
      exact errTruthy_isSome ht

/-- C2 counterexample: a selected subset sharing no code with the
registry yields an empty effective provider set, and the call raises
`ValueError` from `ThreadPoolExecutor(max_workers=0)` instead of
returning a structured result. -/
theorem claim_C2_counterexample :
    getAllQuotes (okBehave pnone) pnone (plist [pstr "bogus"]) [] =
      Except.error "ValueError: max_workers must be greater than 0" := rfl

/-- C2 witness at a concrete all-fail call over the full registry. -/
theorem claim_C2_witness :
    (getAllQuotes (errBehave "x") pnone pnone scraperCodes).map
      (fun r => (r.success, (r.errors.getD []).length)) =
      Except.ok (false, (effectiveProviderCodes pnone).length)
    ∧ (getAllQuotes (errBehave "x") pnone pnone scraperCodes).map
      (fun r => r.providers.all (fun e => e.error.isSome)) = Except.ok true :=
  (claim_C2 (errBehave "x") pnone pnone scraperCodes (List.Perm.refl _) (by decide)).2
    (fun c hc => by
      by_cases h : c ∈ scraperCodes <;>
        simp [fetchFromProvider, errBehave, errTruthy, h])

/-! ## Claim C8: effective provider set resolution -/

/-- C8 (confirmed): the aggregator resolves the effective provider set
as the intersection of the given subset with the registered providers
(all of them when no subset is given); a call with the subset
`{axa, rma}` returns exactly 2 provider entries,
`summary.total_providers = 2`, and every entry's code lies in the
subset. -/
theorem claim_C8 (behave : Behavior) (params : PyVal) (arrival : List String)
    (hperm : arrival.Perm ["axa", "rma"]) :
    effectiveProviderCodes (plist [pstr "axa", pstr "rma"]) = ["axa", "rma"]
    ∧ effectiveProviderCodes pnone = scraperCodes
    ∧ (∀ xs : List PyVal, xs ≠ [] → effectiveProviderCodes (plist xs) =
        scraperCodes.filter (fun c => xs.any (fun x => pyBeq x (pstr c))))
    ∧ (getAllQuotes behave params (plist [pstr "axa", pstr "rma"]) arrival).map
        (fun r => (r.providers.length, r.summary.total_providers)) = Except.ok (2, 2)
    ∧ (getAllQuotes behave params (plist [pstr "axa", pstr "rma"]) arrival).map
        (fun r => r.providers.all (fun e => e.code == "axa" || e.code == "rma")) =
      Except.ok true := by
  have hcodes : effectiveProviderCodes (plist [pstr "axa", pstr "rma"]) =
    ["axa", "rma"] := rfl
  have hlen2 : arrival.length = 2 := hperm.length_eq
  refine ⟨rfl, rfl, ?_, ?_, ?_⟩
  · intro xs hxs
    have : 0 < xs.length := List.length_pos.mpr hxs
    simp [effectiveProviderCodes, this]
  · simp only [getAllQuotes, hcodes, List.isEmpty_cons, Bool.false_eq_true, if_false,
      Except.map, Except.ok.injEq, Prod.mk.injEq]
    constructor
    · rw [List.length_map, List.length_map, hlen2]
    · rw [List.length_map, hlen2]
  · simp only [getAllQuotes, hcodes, List.isEmpty_cons, Bool.false_eq_true, if_false,
      Except.map, Except.ok.injEq, List.all_eq_true, List.mem_map]
    rintro e ⟨r, ⟨c, hc, rfl⟩, rfl⟩
    have hcm : c ∈ (["axa", "rma"] : List String) := hperm.subset hc
    have hcode : (mkEntry (fetchFromProvider behave c params)).code = c := by
      simp [mkEntry, fetch_code]
    rw [hcode]
    simp only [List.mem_cons, List.not_mem_nil, or_false] at hcm
    rcases hcm with rfl | rfl
    · simp
    · simp

/-- C8 witness: the provider-count conjunct applied at a concrete
selection and arrival order. -/
theorem claim_C8_witness :
    (getAllQuotes (okBehave (plist [])) (pdict [])
      (plist [pstr "axa", pstr "rma"]) ["axa", "rma"]).map
        (fun r => (r.providers.length, r.summary.total_providers)) = Except.ok (2, 2) :=
  (claim_C8 (okBehave (plist [])) (pdict []) ["axa", "rma"]
    (List.Perm.refl _)).2.2.2.1

/-! ## Claim C9: field-mapper determinism modulo filler -/

/-- Scrubbed Sanlam payloads do not depend on the random identity. -/
theorem scrub_mapToSanlam (fd : PyVal) (d1 d2 : Identity) (ck : Clock) :
    (mapToSanlam fd d1 ck).map (scrubFiller "sanlam") =
    (mapToSanlam fd d2 ck).map (scrubFiller "sanlam") := by
  cases fd
  case pdict kvs =>
    simp only [mapToSanlam]
    cases h1 : pyLower (dictGetD (pdict kvs) "carburant" (pstr "diesel")) <;>
      simp only [h1, bind, Except.bind, Except.map]
    cases h2 : pyLower (dictGetD (pdict kvs) "marque" (pstr "mercedes")) <;>
      simp only [h2, bind, Except.bind, Except.map]
    cases h3 : strTableGet plateTypeSanlam
        (dictGetD (pdict kvs) "type_plaque" (pstr "standard")) "3" <;>
      simp only [h3, bind, Except.bind, Except.map]
    cases h4 : pyInt (dictGetD (pdict kvs) "valeur_neuf" (pnum 650000)) <;>
      simp only [h4, bind, Except.bind, Except.map]
    cases h5 : pyInt (dictGetD (pdict kvs) "valeur_actuelle" (pnum 650000)) <;>
      simp only [h5, bind, Except.bind, Except.map]
    simp [pure, Except.pure, scrubFiller, dictSetIn, dictSet]
  all_goals rfl

/-- Scrubbed AXA payloads do not depend on the random identity. -/
theorem scrub_mapToAxa (fd : PyVal) (d1 d2 : Identity) (ck : Clock) :
    (mapToAxa fd d1 ck).map (scrubFiller "axa") =
    (mapToAxa fd d2 ck).map (scrubFiller "axa") := by
  cases fd
  case pdict kvs =>
    simp only [mapToAxa]
    cases h1 : pyLower (dictGetD (pdict kvs) "carburant" (pstr "diesel")) <;>
      simp only [h1, bind, Except.bind, Except.map]
    cases h2 : pyInt (dictGetD (pdict kvs) "valeur_neuf" (pnum 400000)) <;>
      simp only [h2, bind, Except.bind, Except.map]
    cases h3 : pyInt (dictGetD (pdict kvs) "valeur_actuelle" (pnum 300000)) <;>
      simp only [h3, bind, Except.bind, Except.map]
    cases h4 : pyUpper (dictGetD (pdict kvs) "marque" (pstr "RENAULT")) <;>
      simp only [h4, bind, Except.bind, Except.map]
    simp [pure, Except.pure, scrubFiller, dictSetIn, dictSet]
  all_goals rfl

/-- Scrubbed RMA payloads do not depend on the random identity. -/
theorem scrub_mapToRma (fd : PyVal) (d1 d2 : Identity) :
    (mapToRma fd d1).map (scrubFiller "rma") =
    (mapToRma fd d2).map (scrubFiller "rma") := by
  cases fd <;> rfl

/-- C9 (amended): two runs of the field mapper on the same request,
the same provider, and the same clock readings yield identical
payloads once the documented randomized filler fields (the dummy phone
number and plate registration) are erased.  (Fields derived from the
wall clock — the Sanlam `policy.startDate` and the AXA
`contrat.dateEffet` — additionally vary with the call's date; see the
counterexample.) -/
theorem claim_C9 (fd : PyVal) (provider : String) (d1 d2 : Identity) (ck : Clock) :
    (mapForScraper fd provider d1 ck).map (scrubFiller provider.toLower) =
    (mapForScraper fd provider d2 ck).map (scrubFiller provider.toLower) := by
  simp only [mapForScraper]
  by_cases h1 : provider.toLower = "sanlam"
  · simp only [h1, if_true]
    exact scrub_mapToSanlam fd d1 d2 ck
  · simp only [h1, if_false]
    by_cases h2 : provider.toLower = "axa"
    · simp only [h2, if_true]
      exact scrub_mapToAxa fd d1 d2 ck
    · simp only [h2, if_false]
      by_cases h3 : provider.toLower = "rma"
      · simp only [h3, if_true]
        try exact scrub_mapToRma fd d1 d2
      · simp only [h3, if_false]

/-- C9 counterexample: the same request mapped for Sanlam with the
same dummy identity on two different days differs — beyond the filler
fields — in the clock-derived `policy.startDate`. -/
theorem claim_C9_counterexample :
    (mapToSanlam (pdict []) identSample clockJan1).map
      (fun p => dictGetPath (scrubFiller "sanlam" p) ["policy", "startDate"]) =
      Except.ok (pstr "2026-01-01")
    ∧ (mapToSanlam (pdict []) identSample clockJan2).map
      (fun p => dictGetPath (scrubFiller "sanlam" p) ["policy", "startDate"]) =
      Except.ok (pstr "2026-01-02")
    ∧ ("2026-01-01" : String) ≠ "2026-01-02" :=
  ⟨rfl, rfl, by decide⟩

/-! ## Queue-model lemmas (claims C3, C4) -/

/-- A list of length at most one that has an entry is that singleton. -/
theorem singleton_of_len_le_one {α : Type} {l : List α} {n : ℕ} {a : α}
    (hlen : l.length ≤ 1) (h : l.get? n = some a) : l = [a] ∧ n = 0 := by
  cases l with
  | nil => simp at h
  | cons x xs =>
    cases xs with
    | nil =>
      cases n with
      | zero =>
        simp only [List.get?] at h
        obtain rfl := Option.some.inj h
        exact ⟨rfl, rfl⟩
      | succ m => simp [List.get?] at h
    | cons y ys => simp at hlen

/-- Workers are never destroyed by a step. -/
theorem qstep_workers_le {failing : ℕ → Bool} {s t : QState} (h : QStep failing s t) :
    s.workers.length ≤ t.workers.length := by
  cases h <;> simp [List.length_set]

/-- Preservation of the lock invariant: any worker inside
`_execute_scrape` (or blocked in its error handler) is the lock
owner. -/
theorem qstep_lockinv {failing : ℕ → Bool} {s t : QState} (hstep : QStep failing s t)
    (hL : ∀ w st, s.workers.get? w = some st → holdsLock st = true →
      s.lockOwner = some w) :
    ∀ w st, t.workers.get? w = some st → holdsLock st = true → t.lockOwner = some w := by
  cases hstep with
  | subCheckRunning i j h => exact hL
  | subStartCheck i j h => exact hL
  | subSpawn i j h =>
    intro w st hw hh
    by_cases hlt : w < s.workers.length
    · rw [List.get?_append hlt] at hw
      exact hL w st hw hh
    · rw [List.get?_append_right (le_of_not_lt hlt)] at hw
      cases hidx : w - s.workers.length with
      | zero =>
        rw [hidx] at hw
        simp only [List.get?] at hw
        obtain rfl := Option.some.inj hw
        simp [holdsLock] at hh
      | succ m =>
        rw [hidx] at hw
        simp [List.get?] at hw
  | subEnqueue i j h => exact hL
  | subCollect i j h hd => exact hL
  | subTimeout i j h => exact hL
  | wDequeue w0 j rest hw0 hq =>
    intro w st hw hh
    by_cases hww : w0 = w
    · subst hww
      obtain ⟨hlt, -⟩ := List.get?_eq_some.mp hw0
      rw [List.get?_set_eq_of_lt _ hlt] at hw
      obtain rfl := Option.some.inj hw
      simp [holdsLock] at hh
    · rw [List.get?_set_ne _ _ hww] at hw
      exact hL w st hw hh
  | wAcquire w0 j hw0 hl =>
    intro w st hw hh
    by_cases hww : w0 = w
    · subst hww
      rfl
    · rw [List.get?_set_ne _ _ hww] at hw
      have := hL w st hw hh
      rw [hl] at this
      cases this
  | wComplete w0 j hw0 hf =>
    intro w st hw hh
    by_cases hww : w0 = w
    · subst hww
      obtain ⟨hlt, -⟩ := List.get?_eq_some.mp hw0
      rw [List.get?_set_eq_of_lt _ hlt] at hw
      obtain rfl := Option.some.inj hw
      simp [holdsLock] at hh
    · rw [List.get?_set_ne _ _ hww] at hw
      have h1 := hL w st hw hh
      have h2 := hL w0 _ hw0 rfl
      rw [h1] at h2
      obtain rfl := Option.some.inj h2
      exact absurd rfl hww
  | wFail w0 j hw0 hf =>
    intro w st hw hh
    by_cases hww : w0 = w
    · subst hww
      exact hL w0 _ hw0 rfl
    · rw [List.get?_set_ne _ _ hww] at hw
      exact hL w st hw hh
  | wCloseAcquire w0 j hw0 hl =>
    intro w st hw hh
    have := hL w0 _ hw0 rfl
    rw [hl] at this
    cases this

/-- Preservation of the single-worker FIFO invariant: the enqueue
sequence is the start sequence followed by the dequeued-but-unstarted
jobs and the queue. -/
theorem qstep_fifo {failing : ℕ → Bool} {s t : QState} (hstep : QStep failing s t)
    (hF : s.workers.length ≤ 1 →
      enqSeq s.log = startSeq s.log ++ (heldJobs s.workers ++ s.queue)) :
    t.workers.length ≤ 1 →
      enqSeq t.log = startSeq t.log ++ (heldJobs t.workers ++ t.queue) := by
  cases hstep with
  | subCheckRunning i j h => exact hF
  | subStartCheck i j h => exact hF
  | subSpawn i j h =>
    intro hlen
    simp only [List.length_append, List.length_cons, List.length_nil] at hlen
    have h0 : s.workers.length = 0 := by omega
    have hnil : s.workers = [] := List.length_eq_zero.mp h0
    have := hF (by omega)
    simpa [hnil, heldJobs] using this
  | subEnqueue i j h =>
    intro hlen
    have := hF hlen
    simp only [enqSeq, startSeq, List.filterMap_append, List.filterMap_cons,
      List.filterMap_nil] at this ⊢
    rw [this]
    simp [List.append_assoc]
  | subCollect i j h hd => exact hF
  | subTimeout i j h => exact hF
  | wDequeue w0 j rest hw0 hq =>
    intro hlen
    simp only [List.length_set] at hlen
    obtain ⟨hsing, rfl⟩ := singleton_of_len_le_one hlen hw0
    have := hF hlen
    rw [hsing] at this ⊢
    rw [hq] at this
    simpa [heldJobs] using this
  | wAcquire w0 j hw0 hl =>
    intro hlen
    simp only [List.length_set] at hlen
    obtain ⟨hsing, rfl⟩ := singleton_of_len_le_one hlen hw0
    have := hF hlen
    rw [hsing] at this ⊢
    simp only [enqSeq, startSeq, List.filterMap_append, List.filterMap_cons,
      List.filterMap_nil] at this ⊢
    rw [this]
    simp [heldJobs, List.append_assoc]
  | wComplete w0 j hw0 hf =>
    intro hlen
    simp only [List.length_set] at hlen
    obtain ⟨hsing, rfl⟩ := singleton_of_len_le_one hlen hw0
    have := hF hlen
    rw [hsing] at this ⊢
    simp only [enqSeq, startSeq, List.filterMap_append, List.filterMap_cons,
      List.filterMap_nil] at this ⊢
    simpa [heldJobs] using this
  | wFail w0 j hw0 hf =>
    intro hlen
    simp only [List.length_set] at hlen
    obtain ⟨hsing, rfl⟩ := singleton_of_len_le_one hlen hw0
    have := hF hlen
    rw [hsing] at this ⊢
    simpa [heldJobs] using this
  | wCloseAcquire w0 j hw0 hl =>
    intro hlen
    simp only [List.length_set] at hlen
    obtain ⟨hsing, rfl⟩ := singleton_of_len_le_one hlen hw0
    have := hF hlen
    rw [hsing] at this ⊢
    simp only [enqSeq, startSeq, List.filterMap_append, List.filterMap_cons,
      List.filterMap_nil] at this ⊢
    simpa [heldJobs] using this

/-- Both queue invariants hold in every reachable state. -/
theorem qreach_invariants (failing : ℕ → Bool) (jobs : List ℕ) {s : QState}
    (h : QReach failing (mkInit jobs) s) :
    (∀ w st, s.workers.get? w = some st → holdsLock st = true →
      s.lockOwner = some w)
    ∧ (s.workers.length ≤ 1 →
        enqSeq s.log = startSeq s.log ++ (heldJobs s.workers ++ s.queue)) := by
  induction h with
  | refl =>
    constructor
    · intro w st hw hh
      simp [mkInit] at hw
    · intro _
      rfl
  | tail hab hbc ih =>
    exact ⟨qstep_lockinv hbc ih.1, qstep_fifo hbc ih.2⟩

/-- C3 (amended): in every reachable state of the browser manager, at
most one worker is inside `_execute_scrape` at a time (executions
never overlap, guarded by `_browser_lock`), and as long as at most one
worker thread has been spawned, jobs begin execution in exactly FIFO
enqueue order: the sequence of execution starts is a prefix of the
sequence of enqueues.  (The unsynchronized double-checked `start()`
can spawn a second worker when the first submissions race, and then a
later-enqueued job may begin execution first; see the
counterexample.) -/
theorem claim_C3 (failing : ℕ → Bool) (jobs : List ℕ) (s : QState)
    (h : QReach failing (mkInit jobs) s) :
    (∀ w1 w2 j1 j2, s.workers.get? w1 = some (WSt.wexec j1) →
      s.workers.get? w2 = some (WSt.wexec j2) → w1 = w2)
    ∧ (s.workers.length ≤ 1 → ∃ rest, enqSeq s.log = startSeq s.log ++ rest) := by
  have hc := qreach_invariants failing jobs h
  constructor
  · intro w1 w2 j1 j2 h1 h2
    have e1 := hc.1 w1 _ h1 rfl
    have e2 := hc.1 w2 _ h2 rfl
    rw [e1] at e2
    exact Option.some.inj e2
  · intro hlen
    exact ⟨heldJobs s.workers ++ s.queue, hc.2 hlen⟩

/-- C3 counterexample: two submitters racing through the
unsynchronized double-checked `start()` both spawn a worker; the two
workers dequeue jobs 0 and 1 respectively and the second worker
acquires the browser lock first, so job 1 — enqueued after job 0 —
begins execution before job 0 does. -/
theorem claim_C3_counterexample :
    QReach noFailures (mkInit [0, 1]) c3CexState ∧ ¬ fifoStartOrder c3CexState.log := by
  constructor
  · refine Relation.ReflTransGen.head (QStep.subCheckRunning _ 0 0 rfl) ?_
    refine Relation.ReflTransGen.head (QStep.subCheckRunning _ 1 1 rfl) ?_
    refine Relation.ReflTransGen.head (QStep.subStartCheck _ 0 0 rfl) ?_
    refine Relation.ReflTransGen.head (QStep.subStartCheck _ 1 1 rfl) ?_
    refine Relation.ReflTransGen.head (QStep.subSpawn _ 0 0 rfl) ?_
    refine Relation.ReflTransGen.head (QStep.subSpawn _ 1 1 rfl) ?_
    refine Relation.ReflTransGen.head (QStep.subEnqueue _ 0 0 rfl) ?_
    refine Relation.ReflTransGen.head (QStep.subEnqueue _ 1 1 rfl) ?_
    refine Relation.ReflTransGen.head (QStep.wDequeue _ 0 0 [1] rfl rfl) ?_
    refine Relation.ReflTransGen.head (QStep.wDequeue _ 1 1 [] rfl rfl) ?_
    refine Relation.ReflTransGen.head (QStep.wAcquire _ 1 1 rfl rfl) ?_
    exact Relation.ReflTransGen.refl
  · intro hf
    have hsplit : ∃ l1 l2 l3, c3CexState.log =
        l1 ++ QEvent.enq 0 :: l2 ++ QEvent.enq 1 :: l3 :=
      ⟨[], [], [QEvent.execStart 1], rfl⟩
    have hmem : QEvent.execStart 1 ∈ c3CexState.log := by decide
    obtain ⟨m1, m2, m3, hm⟩ := hf 0 1 hsplit hmem
    have : QEvent.execStart 0 ∈ c3CexState.log := by
      rw [hm]
      simp
    exact absurd this (by decide)

/-- C3 witness: the amended statement applied at the initial state of
a one-job system. -/
theorem claim_C3_witness :
    ((∀ w1 w2 j1 j2, (mkInit [5]).workers.get? w1 = some (WSt.wexec j1) →
      (mkInit [5]).workers.get? w2 = some (WSt.wexec j2) → w1 = w2)
    ∧ ((mkInit [5]).workers.length ≤ 1 →
        ∃ rest, enqSeq (mkInit [5]).log = startSeq (mkInit [5]).log ++ rest)) :=
  claim_C3 noFailures [5] (mkInit [5]) Relation.ReflTransGen.refl

/-- C4 (code bug): when a job's scripted workflow raises, the except
handler of `_execute_scrape` calls `_close_browser()`, which tries to
re-acquire the non-reentrant `_browser_lock` already held by
`_process_queue`.  From the initial two-job state, job 0 failing
drives the system into a reachable state where the single worker is
blocked forever in that acquisition: job 0's done event was never set
and its result never stored (`execEnd 0` never logged), job 1 waits in
the queue forever, both callers have taken the timeout outcome, and no
further step is enabled at all. -/
theorem claim_C4 :
    QReach failsJobZero (mkInit [0, 1]) c4StuckState
    ∧ c4StuckState.doneSet = []
    ∧ c4StuckState.queue = [1]
    ∧ c4StuckState.lockOwner = some 0
    ∧ QEvent.execStart 0 ∈ c4StuckState.log
    ∧ QEvent.execEnd 0 ∉ c4StuckState.log
    ∧ (∀ t, ¬ QStep failsJobZero c4StuckState t) := by
  refine ⟨?_, rfl, rfl, rfl, by decide, by decide, ?_⟩
  · refine Relation.ReflTransGen.head (QStep.subCheckRunning _ 0 0 rfl) ?_
    refine Relation.ReflTransGen.head (QStep.subStartCheck _ 0 0 rfl) ?_
    refine Relation.ReflTransGen.head (QStep.subSpawn _ 0 0 rfl) ?_
    refine Relation.ReflTransGen.head (QStep.subCheckRunning _ 1 1 rfl) ?_
    refine Relation.ReflTransGen.head (QStep.subEnqueue _ 0 0 rfl) ?_
    refine Relation.ReflTransGen.head (QStep.subEnqueue _ 1 1 rfl) ?_
    refine Relation.ReflTransGen.head (QStep.wDequeue _ 0 0 [1] rfl rfl) ?_
    refine Relation.ReflTransGen.head (QStep.wAcquire _ 0 0 rfl rfl) ?_
    refine Relation.ReflTransGen.head (QStep.wFail _ 0 0 rfl rfl) ?_
    refine Relation.ReflTransGen.head (QStep.subTimeout _ 0 0 rfl) ?_
    refine Relation.ReflTransGen.head (QStep.subTimeout _ 1 1 rfl) ?_
    exact Relation.ReflTransGen.refl
  · intro t h
    cases h with
    | subCheckRunning i j hh =>
      have := List.get?_mem hh
      simp [c4StuckState] at this
    | subStartCheck i j hh =>
      have := List.get?_mem hh
      simp [c4StuckState] at this
    | subSpawn i j hh =>
      have := List.get?_mem hh
      simp [c4StuckState] at this
    | subEnqueue i j hh =>
      have := List.get?_mem hh
      simp [c4StuckState] at this
    | subCollect i j hh hd =>
      have := List.get?_mem hh
      simp [c4StuckState] at this
    | subTimeout i j hh =>
      have := List.get?_mem hh
      simp [c4StuckState] at this
    | wDequeue w j rest hw hq =>
      have := List.get?_mem hw
      simp [c4StuckState] at this
    | wAcquire w j hw hl =>
      have := List.get?_mem hw
      simp [c4StuckState] at this
    | wComplete w j hw hf =>
      have := List.get?_mem hw
      simp [c4StuckState] at this
    | wFail w j hw hf =>
      have := List.get?_mem hw
      simp [c4StuckState] at this
    | wCloseAcquire w j hw hl =>
      simp [c4StuckState] at hl

end InsuranceSite
